import Mathlib

set_option maxRecDepth 4000

/-!
Verification of the AIdventure procedural world-generation core.

This file embeds, in Lean 4, the data model and operations of the
repository's tile/zone generation modules (`src/core/tile_indexer.py`,
`src/core/enhanced_tilemap.py`, `src/core/tilemap.py`, `src/core/zone.py`,
`src/core/intelligent_tile_selection.py`, `src/core/scene.py`,
`src/core/scene_description.py`) and proves properties of those embeddings.

Python floats are modelled as exact rationals (ℚ); Python's global
`random` module is modelled as an explicitly threaded deterministic
generator state (`Rng`): every call that consumes randomness takes the
current state and returns the next one.  The concrete pseudo-random
update is a linear congruential step; the claims proved here do not
depend on the distribution of the generator, only on how its state is
threaded and on range/membership facts that hold for Python's
`random.randint` / `random.choice` / `random.random` as well.
-/

/-- Model of the CPython global `random` generator state.  The actual
generator is a Mersenne Twister; the claims below depend only on the
state being threaded deterministically, so a linear congruential update
stands in for it. -/
structure Rng where
  state : Nat
deriving DecidableEq, Repr

namespace Rng

/-- One raw generator step (LCG update). -/
def next (g : Rng) : Nat × Rng :=
  let s := (g.state * 1103515245 + 12345) % 2147483648
  (s, ⟨s⟩)

/-- Model of Python `random.randint(lo, hi)`: inclusive on both ends.
Python raises `ValueError` when `hi < lo`; none of the embedded call
sites can reach that case, and the model returns `lo` there. -/
def randInt (g : Rng) (lo hi : Int) : Int × Rng :=
  let (n, g') := g.next
  if lo ≤ hi then (lo + (n : Int) % (hi - lo + 1), g') else (lo, g')

/-- Model of Python `random.choice(l)`: an element of `l` selected by the
generator.  Python raises on an empty sequence; the model returns `d`. -/
def choice (l : List α) (d : α) (g : Rng) : α × Rng :=
  let (n, g') := g.next
  (l.getD (n % l.length) d, g')

/-- Model of Python `random.random()`: a rational in `[0, 1)` (written
with `mkRat`, the exact fraction `(n % 1000000) / 1000000`). -/
def rand01 (g : Rng) : ℚ × Rng :=
  let (n, g') := g.next
  (mkRat (n % 1000000 : Nat) 1000000, g')

/-- Model of Python `random.uniform(a, b) = a + (b-a)*random()`. -/
def uniform (g : Rng) (a b : ℚ) : ℚ × Rng :=
  let (u, g') := g.rand01
  (a + (b - a) * u, g')

theorem randInt_le {g : Rng} {lo hi : Int} (h : lo ≤ hi) :
    lo ≤ (g.randInt lo hi).1 ∧ (g.randInt lo hi).1 ≤ hi := by
  unfold randInt next
  simp only [h, if_true]
  constructor
  · have := Int.emod_nonneg ((((g.state * 1103515245 + 12345) % 2147483648 : Nat) : Int))
      (b := hi - lo + 1) (by omega)
    omega
  · have := Int.emod_lt_of_pos ((((g.state * 1103515245 + 12345) % 2147483648 : Nat) : Int))
      (b := hi - lo + 1) (by omega)
    omega

theorem choice_mem {l : List α} {d : α} (g : Rng) (h : l ≠ []) :
    (Rng.choice l d g).1 ∈ l := by
  unfold choice next
  simp only
  have hlen : 0 < l.length := List.length_pos.mpr h
  have hlt : ((g.state * 1103515245 + 12345) % 2147483648) % l.length < l.length :=
    Nat.mod_lt _ hlen
  rw [List.getD_eq_getElem?_getD, List.getElem?_eq_getElem hlt]
  exact List.getElem_mem hlt

theorem rand01_bounds (g : Rng) : 0 ≤ (g.rand01).1 ∧ (g.rand01).1 < 1 := by
  unfold rand01 next
  simp only
  rw [Rat.mkRat_eq_div]
  constructor
  · positivity
  · rw [div_lt_one (by norm_num)]
    have : ((g.state * 1103515245 + 12345) % 2147483648) % 1000000 < 1000000 :=
      Nat.mod_lt _ (by norm_num)
    exact_mod_cast this

end Rng

/-! ## Association-list dictionaries

Python `dict` objects preserve insertion order; assigning to an existing
key updates the value in place, assigning to a new key appends it. -/

/-- Python `d[k] = v` on an insertion-ordered dictionary. -/
def dictSet [DecidableEq κ] : List (κ × α) → κ → α → List (κ × α)
  | [], k, v => [(k, v)]
  | (k', v') :: rest, k, v =>
      if k' = k then (k, v) :: rest else (k', v') :: dictSet rest k v

/-- Python `d.get(k, dflt)`. -/
def dictGetD [BEq κ] (d : List (κ × α)) (k : κ) (dflt : α) : α :=
  match d.lookup k with
  | some v => v
  | none => dflt

/-- Python `k in d`. -/
def dictHas [BEq κ] (d : List (κ × α)) (k : κ) : Bool :=
  (d.lookup k).isSome

/-- Python `sum(d.values())`. -/
def sumVals (d : List (κ × ℚ)) : ℚ :=
  (d.map Prod.snd).sum

variable {κ : Type} [DecidableEq κ]

theorem dictSet_keys_subset (d : List (κ × α)) (k : κ) (v : α) :
    ∀ k', k' ∈ (dictSet d k v).map Prod.fst → k' ∈ d.map Prod.fst ∨ k' = k := by
  induction d with
  | nil => intro k' h; simp [dictSet] at h; right; exact h
  | cons hd tl ih =>
      intro k' h
      by_cases hk : hd.1 = k
      · simp [dictSet, hk] at h
        rcases h with h | h
        · right; exact h
        · left; simp [h]
      · obtain ⟨a, b⟩ := hd
        simp [dictSet, hk] at h
        rcases h with h | h
        · left; simp [h]
        · rcases ih k' (by simpa using h) with h' | h'
          · left; simp; right; simpa using h'
          · right; exact h'

theorem dictSet_keys_nodup (d : List (κ × α)) (k : κ) (v : α)
    (h : (d.map Prod.fst).Nodup) : ((dictSet d k v).map Prod.fst).Nodup := by
  induction d with
  | nil => simp [dictSet]
  | cons hd tl ih =>
      obtain ⟨a, b⟩ := hd
      simp only [List.map_cons, List.nodup_cons] at h
      by_cases hk : a = k
      · subst hk
        simpa [dictSet, List.nodup_cons] using h
      · simp only [dictSet, hk, if_false, List.map_cons, List.nodup_cons]
        refine ⟨?_, ih h.2⟩
        intro hmem
        rcases dictSet_keys_subset tl k v a hmem with h' | h'
        · exact h.1 h'
        · exact hk h'

/-- With nodup keys, a lookup result is the value of every matching entry. -/
theorem lookup_nodup_unique {d : List (κ × α)} {k : κ} {v : α}
    (hnd : (d.map Prod.fst).Nodup) (hl : d.lookup k = some v) :
    ∀ w, (k, w) ∈ d → w = v := by
  induction d with
  | nil => simp at hl
  | cons hd tl ih =>
      obtain ⟨a, b⟩ := hd
      simp only [List.map_cons, List.nodup_cons] at hnd
      intro w hw
      by_cases hk : a = k
      · subst hk
        simp [List.lookup] at hl
        rcases (List.mem_cons).mp hw with h | h
        · simpa [hl] using congrArg Prod.snd h
        · exact absurd (by simpa using List.mem_map_of_mem Prod.fst h) hnd.1
      · have hk' : (k == a) = false := by
          simp only [beq_eq_false_iff_ne]; exact fun h => hk h.symm
        simp [List.lookup, hk'] at hl
        rcases (List.mem_cons).mp hw with h | h
        · exact absurd (congrArg Prod.fst h).symm hk
        · exact ih hnd.2 hl w h

theorem lookup_mem {d : List (κ × α)} {k : κ} {v : α}
    (h : d.lookup k = some v) : (k, v) ∈ d := by
  induction d with
  | nil => simp at h
  | cons hd tl ih =>
      obtain ⟨a, b⟩ := hd
      by_cases hk : a = k
      · subst hk
        simp [List.lookup] at h
        simp [h]
      · have hk' : (k == a) = false := by
          simp only [beq_eq_false_iff_ne]; exact fun h' => hk h'.symm
        simp [List.lookup, hk'] at h
        exact List.mem_cons_of_mem _ (ih h)

/-! ## TileMap (`src/core/tilemap.py`, class TileMap) -/

/-- `TileMap.__init__`: a `width × height` grid of tile IDs (row-major),
initialized to the empty sentinel 0. -/
structure TileMap where
  width : Int
  height : Int
  tile_size : Int
  map_data : List (List Int)
deriving DecidableEq, Repr

namespace TileMap

/-- `TileMap(width, height, tile_size)` constructor. -/
def mk' (width height : Int) (tile_size : Int := 32) : TileMap :=
  { width := width, height := height, tile_size := tile_size,
    map_data := List.replicate height.toNat (List.replicate width.toNat 0) }

/-- `TileMap.set_tile`: writes `map_data[y][x]` only when
`0 <= x < width and 0 <= y < height`. -/
def set_tile (m : TileMap) (x y : Int) (tile_id : Int) : TileMap :=
  if 0 ≤ x ∧ x < m.width ∧ 0 ≤ y ∧ y < m.height then
    { m with map_data :=
        m.map_data.set y.toNat ((m.map_data.getD y.toNat []).set x.toNat tile_id) }
  else m

/-- `TileMap.get_tile_id`: reads `map_data[y][x]` in bounds, else 0. -/
def get_tile_id (m : TileMap) (x y : Int) : Int :=
  if 0 ≤ x ∧ x < m.width ∧ 0 ≤ y ∧ y < m.height then
    (m.map_data.getD y.toNat []).getD x.toNat 0
  else 0

end TileMap

/-! ## EnhancedTileMap (`src/core/enhanced_tilemap.py`, class EnhancedTileMap)

Same grid discipline as `TileMap`, used by the enhanced generation path. -/

structure EnhancedTileMap where
  width : Int
  height : Int
  tile_size : Int
  map_data : List (List Int)
deriving DecidableEq, Repr

namespace EnhancedTileMap

/-- `EnhancedTileMap(width, height, tile_size)` constructor. -/
def mk' (width height : Int) (tile_size : Int := 32) : EnhancedTileMap :=
  { width := width, height := height, tile_size := tile_size,
    map_data := List.replicate height.toNat (List.replicate width.toNat 0) }

/-- `EnhancedTileMap.set_tile`: in-bounds guarded write. -/
def set_tile (m : EnhancedTileMap) (x y : Int) (tile_id : Int) : EnhancedTileMap :=
  if 0 ≤ x ∧ x < m.width ∧ 0 ≤ y ∧ y < m.height then
    { m with map_data :=
        m.map_data.set y.toNat ((m.map_data.getD y.toNat []).set x.toNat tile_id) }
  else m

/-- `EnhancedTileMap.get_tile_id`: in-bounds guarded read, 0 outside. -/
def get_tile_id (m : EnhancedTileMap) (x y : Int) : Int :=
  if 0 ≤ x ∧ x < m.width ∧ 0 ≤ y ∧ y < m.height then
    (m.map_data.getD y.toNat []).getD x.toNat 0
  else 0

end EnhancedTileMap

/-- C10: Tile access is total at the public interface: for any coordinate
outside the grid, `get_tile_id` returns the empty sentinel 0 and
`set_tile` is a no-op leaving `map_data` unchanged, both for `TileMap`
and for `EnhancedTileMap`. -/
theorem tile_access_total_out_of_bounds
    (m : TileMap) (em : EnhancedTileMap) (x y : Int) (tid : Int)
    (hm : x < 0 ∨ x ≥ m.width ∨ y < 0 ∨ y ≥ m.height)
    (he : x < 0 ∨ x ≥ em.width ∨ y < 0 ∨ y ≥ em.height) :
    m.get_tile_id x y = 0 ∧ m.set_tile x y tid = m ∧
      (m.set_tile x y tid).map_data = m.map_data ∧
    em.get_tile_id x y = 0 ∧ em.set_tile x y tid = em ∧
      (em.set_tile x y tid).map_data = em.map_data := by
  have hm' : ¬(0 ≤ x ∧ x < m.width ∧ 0 ≤ y ∧ y < m.height) := by omega
  have he' : ¬(0 ≤ x ∧ x < em.width ∧ 0 ≤ y ∧ y < em.height) := by omega
  refine ⟨?_, ?_, ?_, ?_, ?_, ?_⟩ <;>
    simp [TileMap.get_tile_id, TileMap.set_tile,
      EnhancedTileMap.get_tile_id, EnhancedTileMap.set_tile, hm', he']

/-- Witness for C10 at a concrete 2×2 map and coordinate (-1, 0). -/
theorem tile_access_total_out_of_bounds_witness :
    ((-1 : Int) < 0 ∨ (-1 : Int) ≥ (TileMap.mk' 2 2).width ∨ (0 : Int) < 0 ∨
        (0 : Int) ≥ (TileMap.mk' 2 2).height) ∧
    (TileMap.mk' 2 2).get_tile_id (-1) 0 = 0 ∧
    (TileMap.mk' 2 2).set_tile (-1) 0 7 = TileMap.mk' 2 2 ∧
    (EnhancedTileMap.mk' 2 2).get_tile_id (-1) 0 = 0 := by
  have h := tile_access_total_out_of_bounds (TileMap.mk' 2 2) (EnhancedTileMap.mk' 2 2)
    (-1) 0 7 (by left; decide) (by left; decide)
  exact ⟨by left; decide, h.1, h.2.1, h.2.2.2.1⟩

/-! ## Scene elements (`src/core/scene_description.py`) -/

/-- The `SceneElement` enum. -/
inductive SceneElement
  | GRASS_PLAIN | GRASS_WILD | DIRT_PATH | STONE_PATH | WATER
  | WALL_STONE | WALL_WOOD | DOOR_WOOD | DOOR_METAL | FLOOR_STONE | FLOOR_WOOD
  | TREE | ROCK | BUSH | FLOWER
  | CHEST | BARREL | TABLE | CHAIR
  | PLAYER | VILLAGER | MERCHANT | GUARD | MONSTER_SMALL | MONSTER_LARGE
deriving DecidableEq, Repr

namespace SceneElement

/-- `element.name`: the Python enum member name. -/
def pyName : SceneElement → String
  | GRASS_PLAIN => "GRASS_PLAIN" | GRASS_WILD => "GRASS_WILD"
  | DIRT_PATH => "DIRT_PATH" | STONE_PATH => "STONE_PATH" | WATER => "WATER"
  | WALL_STONE => "WALL_STONE" | WALL_WOOD => "WALL_WOOD"
  | DOOR_WOOD => "DOOR_WOOD" | DOOR_METAL => "DOOR_METAL"
  | FLOOR_STONE => "FLOOR_STONE" | FLOOR_WOOD => "FLOOR_WOOD"
  | TREE => "TREE" | ROCK => "ROCK" | BUSH => "BUSH" | FLOWER => "FLOWER"
  | CHEST => "CHEST" | BARREL => "BARREL" | TABLE => "TABLE" | CHAIR => "CHAIR"
  | PLAYER => "PLAYER" | VILLAGER => "VILLAGER" | MERCHANT => "MERCHANT"
  | GUARD => "GUARD" | MONSTER_SMALL => "MONSTER_SMALL" | MONSTER_LARGE => "MONSTER_LARGE"

/-- Enum members in declaration order (the iteration order of
`element_to_tiles` in `SceneDescriber._initialize_element_mappings`). -/
def all : List SceneElement :=
  [GRASS_PLAIN, GRASS_WILD, DIRT_PATH, STONE_PATH, WATER,
   WALL_STONE, WALL_WOOD, DOOR_WOOD, DOOR_METAL, FLOOR_STONE, FLOOR_WOOD,
   TREE, ROCK, BUSH, FLOWER, CHEST, BARREL, TABLE, CHAIR,
   PLAYER, VILLAGER, MERCHANT, GUARD, MONSTER_SMALL, MONSTER_LARGE]

end SceneElement

/-- `SceneDescriber.element_to_tiles`: asset paths per scene element. -/
def element_to_tiles : SceneElement → List String
  | .GRASS_PLAIN => ["dc-dngn/floor/grass/grass0.png", "dc-dngn/floor/grass/grass1.png"]
  | .GRASS_WILD => ["dc-dngn/floor/grass/grass_flowers_blue1.png",
                    "dc-dngn/floor/grass/grass_flowers_red1.png"]
  | .DIRT_PATH => ["dc-dngn/floor/dirt0.png", "dc-dngn/floor/dirt1.png"]
  | .STONE_PATH => ["dc-dngn/floor/pebble_brown0.png", "dc-dngn/floor/pebble_brown1.png"]
  | .WATER => ["dc-dngn/water/dngn_shallow_water.png", "dc-dngn/water/dngn_deep_water.png"]
  | .WALL_STONE => ["dc-dngn/wall/brick_brown0.png", "dc-dngn/wall/brick_brown1.png"]
  | .WALL_WOOD => ["dc-dngn/wall/lair0.png", "dc-dngn/wall/lair1.png"]
  | .DOOR_WOOD => ["dc-dngn/dngn_closed_door.png", "dc-dngn/dngn_open_door.png"]
  | .DOOR_METAL => ["dc-dngn/gate_closed_middle.png", "dc-dngn/gate_open_middle.png"]
  | .FLOOR_STONE => ["dc-dngn/floor/grey_dirt0.png", "dc-dngn/floor/grey_dirt1.png"]
  | .FLOOR_WOOD => ["dc-dngn/floor/lair0.png", "dc-dngn/floor/lair1.png"]
  | .TREE => ["dc-dngn/tree1.png", "dc-dngn/tree2.png"]
  | .ROCK => ["dc-dngn/wall/brick_dark0.png", "dc-dngn/wall/brick_dark1.png"]
  | .BUSH => ["dc-dngn/bush1.png", "dc-dngn/bush2.png"]
  | .FLOWER => ["dc-dngn/floor/grass/grass_flowers_yellow1.png",
                "dc-dngn/floor/grass/grass_flowers_yellow2.png"]
  | .CHEST => ["dc-dngn/chest_closed.png", "dc-dngn/chest_open.png"]
  | .BARREL => ["dc-dngn/barrel.png", "dc-dngn/barrel_burning.png"]
  | .TABLE => ["dc-dngn/table_wood.png", "dc-dngn/table_stone.png"]
  | .CHAIR => ["dc-dngn/chair_wood.png", "dc-dngn/chair_stone.png"]
  | .PLAYER => ["player/base/human_m.png", "player/base/human_f.png"]
  | .VILLAGER => ["dc-mon/human.png"]
  | .MERCHANT => ["dc-mon/human.png"]
  | .GUARD => ["dc-mon/human.png"]
  | .MONSTER_SMALL => ["dc-mon/kobold.png", "dc-mon/goblin.png", "dc-mon/hobgoblin.png"]
  | .MONSTER_LARGE => ["dc-mon/ogre.png", "dc-mon/troll.png", "dc-mon/hill_giant.png"]

/-! ## Substring matching (Python `sub in s`) -/

/-- Does `pat` occur at the head of `s`? -/
def matchesFrom : List Char → List Char → Bool
  | _, [] => true
  | [], _ :: _ => false
  | a :: as, b :: bs => a = b && matchesFrom as bs

/-- Does `pat` occur anywhere in `s`? -/
def containsSub : List Char → List Char → Bool
  | [], pat => pat.isEmpty
  | c :: rest, pat => matchesFrom (c :: rest) pat || containsSub rest pat

/-- Python `pat in s` on strings. -/
def strContains (s pat : String) : Bool :=
  containsSub s.data pat.data

/-! ## TileIndexer (`src/core/tile_indexer.py`) -/

/-- The mutable state of a `TileIndexer`: category lists, the
name↔ID maps and the next ID to assign (0 is reserved for "empty"). -/
structure TileIndexer where
  tile_categories : List (String × List String)
  name_to_id : List (String × Nat)
  id_to_name : List (Nat × String)
  current_id : Nat
deriving DecidableEq, Repr

namespace TileIndexer

/-- The fixed category keys created in `TileIndexer.__init__`. -/
def initialCategories : List (String × List String) :=
  [("grass", []), ("water", []), ("trees", []), ("mountains", []),
   ("houses", []), ("paths", []), ("walls", []), ("floors", []),
   ("doors", []), ("special", []), ("items", []), ("player", []),
   ("monster", [])]

/-- `TileIndexer._register_tile`.  The filesystem check
`full_path.exists()` is modelled by the predicate `fileExists`;
a missing file aborts the registration unchanged. -/
def registerTile (fileExists : String → Bool) (st : TileIndexer)
    (tile_path category : String) : TileIndexer :=
  if !fileExists tile_path then st
  else
    let st :=
      if (st.name_to_id.lookup tile_path).isSome then st
      else { st with
        name_to_id := dictSet st.name_to_id tile_path st.current_id,
        id_to_name := dictSet st.id_to_name st.current_id tile_path,
        current_id := st.current_id + 1 }
    if (st.tile_categories.lookup category).isSome then
      let tiles := dictGetD st.tile_categories category []
      if tile_path ∈ tiles then st
      else { st with
        tile_categories := dictSet st.tile_categories category (tiles ++ [tile_path]) }
    else st

/-- The category derivation rule of `TileIndexer._index_tiles` (substring
checks on the enum member name). -/
def indexCategory (name : String) : String :=
  if strContains name "GRASS" || strContains name "PATH" || strContains name "WATER" then
    if strContains name "GRASS" then "grass"
    else if strContains name "PATH" then "paths"
    else "water"
  else if strContains name "WALL" then "walls"
  else if strContains name "DOOR" then "doors"
  else if strContains name "FLOOR" then "floors"
  else if strContains name "TREE" || strContains name "BUSH" ||
          strContains name "FLOWER" then "trees"
  else if strContains name "ROCK" then "mountains"
  else if strContains name "CHEST" || strContains name "BARREL" ||
          strContains name "TABLE" then "items"
  else "special"

/-- `TileIndexer._index_tiles` (as run by `__init__`): reset state, then
register every path of every scene element under its derived category. -/
def indexTiles (fileExists : String → Bool) : TileIndexer :=
  let st : TileIndexer :=
    { tile_categories := initialCategories, name_to_id := [],
      id_to_name := [], current_id := 1 }
  SceneElement.all.foldl (fun st el =>
    (element_to_tiles el).foldl
      (fun st p => st.registerTile fileExists p (indexCategory el.pyName)) st) st

/-- `TileIndexer.get_tile_id` on a string identifier: registered path →
its ID; otherwise an exact-match scan of the category lists (whose hit,
being the identifier itself, reads the same map); else `None`. -/
def get_tile_id (st : TileIndexer) (identifier : String) : Option Nat :=
  match st.name_to_id.lookup identifier with
  | some i => some i
  | none =>
      if st.tile_categories.any (fun kv => kv.2.contains identifier) then
        st.name_to_id.lookup identifier
      else none

/-- `TileIndexer.get_random_tile`: `None` when the category is absent or
empty, otherwise a random element of the category list. -/
def get_random_tile (st : TileIndexer) (category : String) (g : Rng) :
    Option String × Rng :=
  let tiles := dictGetD st.tile_categories category []
  if tiles = [] then (none, g)
  else
    let (t, g') := Rng.choice tiles "" g
    (some t, g')

end TileIndexer

/-- `SceneDescriber.get_tile_for_element`: pick a random asset path for
the element and resolve it through the indexer.  (`element_to_tiles` is
total over the enum, so the `element not in ...` branch cannot fire; the
empty-list guard is kept.) -/
def get_tile_for_element (st : TileIndexer) (el : SceneElement) (g : Rng) :
    Option Nat × Rng :=
  let tile_paths := element_to_tiles el
  if tile_paths = [] then (none, g)
  else
    let (p, g') := Rng.choice tile_paths "" g
    (st.get_tile_id p, g')

/-! ## EnhancedTileset (`src/core/enhanced_tilemap.py`, class EnhancedTileset) -/

/-- An `EnhancedTileset`: an indexer plus the ID/type/path mappings built
by `_initialize_tile_mappings`. -/
structure EnhancedTileset where
  indexer : TileIndexer
  id_to_type : List (Nat × String)
  id_to_path : List (Nat × String)
  type_to_ids : List (String × List Nat)
deriving DecidableEq, Repr

namespace EnhancedTileset

/-- `EnhancedTileset._initialize_tile_mappings`. -/
def build (indexer : TileIndexer) : EnhancedTileset :=
  let init : EnhancedTileset :=
    { indexer := indexer, id_to_type := [], id_to_path := [], type_to_ids := [] }
  indexer.tile_categories.foldl (fun ts kv =>
    let category := kv.1
    let tile_paths := kv.2
    if tile_paths = [] then ts
    else
      let ts :=
        if (ts.type_to_ids.lookup category).isSome then ts
        else { ts with type_to_ids := dictSet ts.type_to_ids category [] }
      tile_paths.foldl (fun ts tile_path =>
        match indexer.get_tile_id tile_path with
        | some tile_id =>
            { ts with
              id_to_type := dictSet ts.id_to_type tile_id category,
              id_to_path := dictSet ts.id_to_path tile_id tile_path,
              type_to_ids := dictSet ts.type_to_ids category
                (dictGetD ts.type_to_ids category [] ++ [tile_id]) }
        | none => ts) ts) init

/-- `EnhancedTileset.get_random_tile_id`: 0 when the type has no
registered IDs, otherwise a random ID of that type. -/
def get_random_tile_id (ts : EnhancedTileset) (tile_type : String) (g : Rng) :
    Nat × Rng :=
  match ts.type_to_ids.lookup tile_type with
  | some ids => if ids ≠ [] then Rng.choice ids 0 g else (0, g)
  | none => (0, g)

end EnhancedTileset

/-- The catalog indexed from the full scene-element table with every
asset file present (the shipped-assets configuration). -/
def fullIndexer : TileIndexer := TileIndexer.indexTiles (fun _ => true)

/-- The tileset built over `fullIndexer`. -/
def fullTileset : EnhancedTileset := EnhancedTileset.build fullIndexer

theorem get_tile_for_element_fst (st : TileIndexer) (el : SceneElement) (g : Rng)
    (h : element_to_tiles el ≠ []) :
    (get_tile_for_element st el g).1 =
      st.get_tile_id (Rng.choice (element_to_tiles el) "" g).1 := by
  unfold get_tile_for_element
  rcases hc : Rng.choice (element_to_tiles el) "" g with ⟨p, g'⟩
  simp [if_neg h, hc]

/-- C1: resolving a concept with zero registered assets fails with the
no-variants signal instead of an ordinary tile value — `None` from
`TileIndexer.get_random_tile`, 0 from `EnhancedTileset.get_random_tile_id`
— for every catalog state; concretely, "nonexistent-concept" resolves to
the failure signal on the fully indexed catalog while the documented
fallback (the grass-plain concept) resolves to a registered ID. -/
theorem resolve_empty_concept_fails
    (st : TileIndexer) (ts : EnhancedTileset) (cat tt : String) (g : Rng)
    (hst : st.tile_categories.lookup cat = none ∨
           st.tile_categories.lookup cat = some [])
    (hts : ts.type_to_ids.lookup tt = none ∨ ts.type_to_ids.lookup tt = some []) :
    (st.get_random_tile cat g).1 = none ∧
    (ts.get_random_tile_id tt g).1 = 0 ∧
    (fullIndexer.get_random_tile "nonexistent-concept" g).1 = none ∧
    (fullTileset.get_random_tile_id "nonexistent-concept" g).1 = 0 ∧
    (get_tile_for_element fullIndexer SceneElement.GRASS_PLAIN g).1 ≠ none := by
  refine ⟨?_, ?_, ?_, ?_, ?_⟩
  · rcases hst with h | h <;> simp [TileIndexer.get_random_tile, dictGetD, h]
  · rcases hts with h | h <;> simp [EnhancedTileset.get_random_tile_id, h]
  · have h : fullIndexer.tile_categories.lookup "nonexistent-concept" = none := by decide
    simp [TileIndexer.get_random_tile, dictGetD, h]
  · have h : fullTileset.type_to_ids.lookup "nonexistent-concept" = none := by decide
    simp [EnhancedTileset.get_random_tile_id, h]
  · have hne : element_to_tiles SceneElement.GRASS_PLAIN ≠ [] := by decide
    have hm : (Rng.choice (element_to_tiles SceneElement.GRASS_PLAIN) "" g).1 ∈
        element_to_tiles SceneElement.GRASS_PLAIN := Rng.choice_mem g hne
    have hlit : element_to_tiles SceneElement.GRASS_PLAIN =
        ["dc-dngn/floor/grass/grass0.png", "dc-dngn/floor/grass/grass1.png"] := rfl
    rw [hlit] at hm
    rw [get_tile_for_element_fst fullIndexer SceneElement.GRASS_PLAIN g hne, hlit]
    rcases List.mem_pair.mp hm with h | h <;> rw [h] <;> decide

/-- Witness for C1 at concrete inputs: the fully indexed catalog has no
"nonexistent-concept" category, so both hypotheses are discharged there. -/
theorem resolve_empty_concept_fails_witness :
    (fullIndexer.tile_categories.lookup "nonexistent-concept" = none ∨
     fullIndexer.tile_categories.lookup "nonexistent-concept" = some []) ∧
    (fullIndexer.get_random_tile "nonexistent-concept" ⟨0⟩).1 = none ∧
    (fullTileset.get_random_tile_id "nonexistent-concept" ⟨0⟩).1 = 0 := by
  have h := resolve_empty_concept_fails fullIndexer fullTileset
    "nonexistent-concept" "nonexistent-concept" ⟨0⟩
    (Or.inl (by decide)) (Or.inl (by decide))
  exact ⟨Or.inl (by decide), h.1, h.2.1⟩

/-- C9 counterexample: `dc-dngn/tree1.png` is already registered in the
fully indexed catalog (under "trees"), yet registering it a second time
under the different category "water" changes the catalog — the "water"
category list gains the path — so re-registration in *any* category is
not a no-op, contrary to the claim. -/
theorem register_other_category_changes_catalog :
    (fullIndexer.name_to_id.lookup "dc-dngn/tree1.png").isSome = true ∧
    fullIndexer.registerTile (fun _ => true) "dc-dngn/tree1.png" "water" ≠
      fullIndexer := by
  exact ⟨by decide, by decide⟩

/-- C9 (amended): re-registering an already-registered assetRef never
allocates a new ID and never touches the name↔ID maps or the counter;
and when the target category's list already holds the assetRef (in
particular, re-registering under the same category), the whole catalog
is left unchanged.  (Re-registering under a *different* valid category
appends the ref to that category's list, per the counterexample.) -/
theorem register_again_preserves_ids
    (fe : String → Bool) (st : TileIndexer) (p c : String)
    (hreg : (st.name_to_id.lookup p).isSome = true)
    (hfe : fe p = true) :
    ((st.registerTile fe p c).name_to_id = st.name_to_id ∧
     (st.registerTile fe p c).id_to_name = st.id_to_name ∧
     (st.registerTile fe p c).current_id = st.current_id) ∧
    (p ∈ dictGetD st.tile_categories c [] → st.registerTile fe p c = st) := by
  unfold TileIndexer.registerTile
  simp only [hfe, Bool.not_true, Bool.false_eq_true, if_false, hreg, if_true]
  constructor
  · split_ifs <;> simp
  · intro hp
    split_ifs <;> simp_all

/-- Witness for C9's amended theorem: re-registering the tree tile under
its own category "trees" leaves the fully indexed catalog unchanged. -/
theorem register_again_preserves_ids_witness :
    (fullIndexer.name_to_id.lookup "dc-dngn/tree1.png").isSome = true ∧
    fullIndexer.registerTile (fun _ => true) "dc-dngn/tree1.png" "trees" =
      fullIndexer := by
  have h := register_again_preserves_ids (fun _ => true) fullIndexer
    "dc-dngn/tree1.png" "trees" (by decide) rfl
  exact ⟨by decide, h.2 (by decide)⟩

/-! ## PerlinNoise (`src/core/enhanced_tilemap.py`, class PerlinNoise) -/

/-- Model of `random.seed(seed)`: the global generator state becomes a
pure function of the seed value. -/
def seedRng (seed : Nat) : Rng :=
  ⟨(seed + 1) * 2654435761 % 2147483648⟩

/-- One pass of `random.shuffle`'s Fisher–Yates loop, from index `i`
down to 1: swap `l[i]` with `l[j]` for `j` drawn in `[0, i]`. -/
def pyShuffleStep : List Nat → Rng → Nat → List Nat × Rng
  | l, g, 0 => (l, g)
  | l, g, i + 1 =>
      let (j, g') := Rng.randInt g 0 ((i : Int) + 1)
      let li := l.getD (i + 1) 0
      let lj := l.getD j.toNat 0
      let l' := (l.set (i + 1) lj).set j.toNat li
      pyShuffleStep l' g' i

/-- Model of Python `random.shuffle(l)`. -/
def pyShuffle (l : List Nat) (g : Rng) : List Nat × Rng :=
  match l.length with
  | 0 => (l, g)
  | n + 1 => pyShuffleStep l g n

/-- A `PerlinNoise` instance: the doubled permutation table `self.p`. -/
structure PerlinNoise where
  p : List Nat
deriving DecidableEq, Repr

namespace PerlinNoise

/-- `PerlinNoise.__init__`: when a seed is given, `random.seed(seed)`
re-seeds the global generator (so the incoming state is discarded);
then `range(256)` is shuffled and doubled. -/
def init (seed : Option Nat) (g : Rng) : PerlinNoise × Rng :=
  let g := match seed with
    | some s => seedRng s
    | none => g
  let pr := pyShuffle (List.range 256) g
  ({ p := pr.1 ++ pr.1 }, pr.2)

/-- `PerlinNoise.fade`. -/
def fade (t : ℚ) : ℚ := t * t * t * (t * (t * 6 - 15) + 10)

/-- `PerlinNoise.lerp`. -/
def lerp (t a b : ℚ) : ℚ := a + t * (b - a)

/-- `PerlinNoise.grad` (`h & 15`, `h & 1`, `h & 2` written as mod /
division on naturals). -/
def grad (hash : Nat) (x y z : ℚ) : ℚ :=
  let h := hash % 16
  let u := if h < 8 then x else y
  let v := if h < 4 then y else (if h = 12 ∨ h = 14 then x else z)
  (if h % 2 = 0 then u else -u) + (if h / 2 % 2 = 0 then v else -v)

/-- `PerlinNoise.noise`: `int(math.floor(x)) & 255` is
`(⌊x⌋ % 256).toNat` on integers. -/
def noise (pn : PerlinNoise) (x y : ℚ) (z : ℚ := 0) : ℚ :=
  let X := (⌊x⌋ % 256).toNat
  let Y := (⌊y⌋ % 256).toNat
  let Z := (⌊z⌋ % 256).toNat
  let x := x - (⌊x⌋ : ℚ)
  let y := y - (⌊y⌋ : ℚ)
  let z := z - (⌊z⌋ : ℚ)
  let u := fade x
  let v := fade y
  let w := fade z
  let p := pn.p
  let A := p.getD X 0 + Y
  let AA := p.getD A 0 + Z
  let AB := p.getD (A + 1) 0 + Z
  let B := p.getD (X + 1) 0 + Y
  let BA := p.getD B 0 + Z
  let BB := p.getD (B + 1) 0 + Z
  lerp w
    (lerp v
      (lerp u (grad (p.getD AA 0) x y z) (grad (p.getD BA 0) (x - 1) y z))
      (lerp u (grad (p.getD AB 0) x (y - 1) z) (grad (p.getD BB 0) (x - 1) (y - 1) z)))
    (lerp v
      (lerp u (grad (p.getD (AA + 1) 0) x y (z - 1))
              (grad (p.getD (BA + 1) 0) (x - 1) y (z - 1)))
      (lerp u (grad (p.getD (AB + 1) 0) x (y - 1) (z - 1))
              (grad (p.getD (BB + 1) 0) (x - 1) (y - 1) (z - 1))))

/-- The per-cell octave loop of `generate_noise_map`: accumulate
`noise(x/scale*freq, y/scale*freq)*0.5 + 0.5` scaled by the running
amplitude, with `amplitude *= persistence`, `frequency *= lacunarity`. -/
def octaveAccum (pn : PerlinNoise) (x y scale persistence lacunarity : ℚ) :
    Nat → ℚ → ℚ → ℚ → ℚ
  | 0, _, _, nh => nh
  | k + 1, amp, freq, nh =>
      let sample_x := x / scale * freq
      let sample_y := y / scale * freq
      let nv := pn.noise sample_x sample_y * (1/2) + 1/2
      octaveAccum pn x y scale persistence lacunarity k
        (amp * persistence) (freq * lacunarity) (nh + nv * amp)

/-- The normalization pass of `generate_noise_map`: divide by the
observed min/max spread, or set every value to 0 when the spread is 0.
The running min/max of the Python loops over a nonempty grid equal the
fold of the flattened raw values seeded with the first one. -/
def normalizeField (raw : List (List ℚ)) : List (List ℚ) :=
  match raw.join with
  | [] => raw
  | v :: vs =>
      let mx := vs.foldl max v
      let mn := vs.foldl min v
      raw.map (fun row => row.map (fun t =>
        if mx - mn > 0 then (t - mn) / (mx - mn) else 0))

/-- `PerlinNoise.generate_noise_map`: `scale <= 0` is clamped to 0.0001,
the raw octave noise is computed per cell, then normalized by the
observed min/max. -/
def generate_noise_map (pn : PerlinNoise) (width height : Nat)
    (scale : ℚ := 1/10) (octaves : Nat := 1)
    (persistence : ℚ := 1/2) (lacunarity : ℚ := 2) : List (List ℚ) :=
  let scale := if scale ≤ 0 then 1/10000 else scale
  let raw := (List.range height).map (fun y =>
    (List.range width).map (fun x =>
      octaveAccum pn (x : ℚ) (y : ℚ) scale persistence lacunarity octaves 1 1 0))
  normalizeField raw

end PerlinNoise

/-- C2: for every seed and every fixed parameter tuple, two noise
generators constructed from that seed — regardless of the global
generator states at construction time — produce identical noise maps:
`random.seed(seed)` makes the permutation table a pure function of the
seed, and `generate_noise_map` reads nothing but the table and its
parameters. -/
theorem noise_generation_deterministic (seed : Nat) (g1 g2 : Rng)
    (width height : Nat) (scale : ℚ) (octaves : Nat)
    (persistence lacunarity : ℚ) :
    (PerlinNoise.init (some seed) g1).1.generate_noise_map
        width height scale octaves persistence lacunarity =
    (PerlinNoise.init (some seed) g2).1.generate_noise_map
        width height scale octaves persistence lacunarity := by
  have h : PerlinNoise.init (some seed) g1 = PerlinNoise.init (some seed) g2 := by
    simp only [PerlinNoise.init]
  rw [h]

theorem foldl_min_le_init (l : List ℚ) (a : ℚ) : l.foldl min a ≤ a := by
  induction l generalizing a with
  | nil => simp
  | cons x xs ih =>
      simp only [List.foldl_cons]
      exact le_trans (ih (min a x)) (min_le_left a x)

theorem foldl_min_le_mem (l : List ℚ) (a : ℚ) : ∀ x ∈ l, l.foldl min a ≤ x := by
  induction l generalizing a with
  | nil => simp
  | cons y ys ih =>
      intro x hx
      rcases List.mem_cons.mp hx with h | h
      · subst h
        simp only [List.foldl_cons]
        exact le_trans (foldl_min_le_init ys (min a x)) (min_le_right a x)
      · simp only [List.foldl_cons]
        exact ih (min a y) x h

theorem le_foldl_max_init (l : List ℚ) (a : ℚ) : a ≤ l.foldl max a := by
  induction l generalizing a with
  | nil => simp
  | cons x xs ih =>
      simp only [List.foldl_cons]
      exact le_trans (le_max_left a x) (ih (max a x))

theorem le_foldl_max_mem (l : List ℚ) (a : ℚ) : ∀ x ∈ l, x ≤ l.foldl max a := by
  induction l generalizing a with
  | nil => simp
  | cons y ys ih =>
      intro x hx
      rcases List.mem_cons.mp hx with h | h
      · subst h
        simp only [List.foldl_cons]
        exact le_trans (le_max_right a x) (le_foldl_max_init ys (max a x))
      · simp only [List.foldl_cons]
        exact ih (max a y) x h

/-- Every entry of a normalized field lies in `[0, 1]`. -/
theorem normalizeField_mem_unit (raw : List (List ℚ)) :
    ∀ row ∈ PerlinNoise.normalizeField raw, ∀ e ∈ row, 0 ≤ e ∧ e ≤ 1 := by
  unfold PerlinNoise.normalizeField
  rcases hj : raw.join with _ | ⟨v, vs⟩
  · intro row hrow e he
    have hempty := (List.join_eq_nil_iff.mp hj) row hrow
    rw [hempty] at he
    simp at he
  · intro row hrow e he
    obtain ⟨row0, hrow0, hmap⟩ := List.mem_map.mp hrow
    subst hmap
    obtain ⟨t, ht, hft⟩ := List.mem_map.mp he
    subst hft
    have htj : t ∈ raw.join := List.mem_join.mpr ⟨row0, hrow0, ht⟩
    rw [hj] at htj
    have hmn : vs.foldl min v ≤ t := by
      rcases List.mem_cons.mp htj with h | h
      · subst h; exact foldl_min_le_init vs t
      · exact foldl_min_le_mem vs v t h
    have hmx : t ≤ vs.foldl max v := by
      rcases List.mem_cons.mp htj with h | h
      · subst h; exact le_foldl_max_init vs t
      · exact le_foldl_max_mem vs v t h
    by_cases hpos : vs.foldl max v - vs.foldl min v > 0
    · simp only [hpos, if_true]
      constructor
      · apply div_nonneg _ (le_of_lt hpos)
        linarith
      · rw [div_le_one hpos]
        linarith
    · simp only [hpos, if_false]
      norm_num

/-- C3: every entry of `generate_noise_map` lies in `[0, 1]` — after
normalization by the observed min/max, with the degenerate equal-min-max
case set to 0 — for positive width, height and scale. -/
theorem noise_map_values_in_unit_interval (pn : PerlinNoise)
    (width height : Nat) (scale : ℚ) (octaves : Nat)
    (persistence lacunarity : ℚ)
    (hw : 0 < width) (hh : 0 < height) (hs : 0 < scale) :
    ∀ row ∈ pn.generate_noise_map width height scale octaves
        persistence lacunarity,
      ∀ e ∈ row, 0 ≤ e ∧ e ≤ 1 := by
  unfold PerlinNoise.generate_noise_map
  exact normalizeField_mem_unit _

/-- Witness for C3 at a concrete generator and positive parameters. -/
theorem noise_map_values_in_unit_interval_witness :
    0 < 1 ∧ (0 : ℚ) < 1 ∧
    (∀ row ∈ (PerlinNoise.init (some 42) ⟨0⟩).1.generate_noise_map
        1 1 1 1 (1/2) 2, ∀ e ∈ row, 0 ≤ e ∧ e ≤ 1) :=
  ⟨by decide, by norm_num,
   noise_map_values_in_unit_interval (PerlinNoise.init (some 42) ⟨0⟩).1
     1 1 1 1 (1/2) 2 (by decide) (by decide) (by norm_num)⟩

/-! ## Loop helpers -/

/-- Python `range(a, b)` over integers. -/
def intRange (a b : Int) : List Int :=
  (List.range (b - a).toNat).map (fun i => a + (i : Int))

/-- A `for` loop threading a state and the generator. -/
def foldRng (l : List α) (st : σ) (g : Rng) (f : σ → Rng → α → σ × Rng) :
    σ × Rng :=
  match l with
  | [] => (st, g)
  | a :: as =>
      let r := f st g a
      foldRng as r.1 r.2 f

/-- Python `int(q)` on a float: truncation toward zero. -/
def truncInt (q : ℚ) : Int :=
  if 0 ≤ q then ⌊q⌋ else -⌊-q⌋

/-- Python `str(i)` on an integer. -/
def intRepr (i : Int) : String :=
  if i < 0 then "-" ++ Nat.repr i.natAbs else Nat.repr i.toNat

/-! ## Tileset (`src/core/tilemap.py`, class Tileset)

The pygame image loading is out of scope; a tileset is its tile size and
its category → tile-ID table (loaded from config or defaulted). -/

structure Tileset where
  tile_size : Int
  tile_types : List (String × List Int)
deriving DecidableEq, Repr

/-- `Tileset._set_default_tile_types`: six evenly distributed ID ranges,
with empty ranges replaced by `[0]`. -/
def setDefaultTileTypes (total_tiles : Nat) : Tileset :=
  let sixth := total_tiles / 6
  let ids := fun (a b : Nat) => (List.range' a (b - a)).map (Int.ofNat)
  let tt := [("grass", ids 0 sixth), ("water", ids sixth (sixth * 2)),
             ("trees", ids (sixth * 2) (sixth * 3)),
             ("mountains", ids (sixth * 3) (sixth * 4)),
             ("houses", ids (sixth * 4) (sixth * 5)),
             ("paths", ids (sixth * 5) total_tiles)]
  { tile_size := 32,
    tile_types := tt.map (fun kv => if kv.2 = [] then (kv.1, [(0 : Int)]) else kv) }

/-! ## MapGenerator (`src/core/tilemap.py`, class MapGenerator)

Integer `//` division: every division below is applied to nonnegative
quantities (map dimensions), where Lean's `Int` division agrees with
Python's floor division. -/

namespace MapGenerator

/-- The "not too close to another house" scan of `generate_village`
(grid scan of `[house_y-2, house_y+4) × [house_x-2, house_x+4)`; a
`True` result means no surrounding in-bounds cell holds a house tile). -/
def houseSpotValid (m : TileMap) (house_tiles : List Int)
    (house_x house_y : Int) : Bool :=
  (intRange (house_y - 2) (house_y + 4)).all (fun cy =>
    (intRange (house_x - 2) (house_x + 4)).all (fun cx =>
      if 0 ≤ cx ∧ cx < m.width ∧ 0 ≤ cy ∧ cy < m.height then
        !(house_tiles.contains (m.get_tile_id cx cy))
      else true))

/-- The 8-house placement loop of `generate_village`: up to 10 attempts
per house; on a valid off-path spot, place a 2×2 house and stop. -/
def placeHouseAttempts (house_tiles : List Int) (cross_x width height : Int) :
    Nat → TileMap → Rng → TileMap × Rng
  | 0, m, g => (m, g)
  | attempts + 1, m, g =>
      let r1 := g.randInt 2 (width - 4)
      let house_x := r1.1
      let r2 := r1.2.randInt 2 (height - 4)
      let house_y := r2.1
      let g := r2.2
      if |house_y - height / 2| > 3 ∨ |house_x - cross_x| > 3 then
        if houseSpotValid m house_tiles house_x house_y then
          let r3 := Rng.choice house_tiles 0 g
          let t := r3.1
          let m := ((((m.set_tile house_x house_y t).set_tile
            (house_x + 1) house_y t).set_tile
            house_x (house_y + 1) t).set_tile
            (house_x + 1) (house_y + 1) t)
          (m, r3.2)
        else placeHouseAttempts house_tiles cross_x width height attempts m g
      else placeHouseAttempts house_tiles cross_x width height attempts m g

/-- `MapGenerator.generate_village`. -/
def generate_village (ts : Tileset) (width height : Int) (g : Rng) :
    TileMap × Rng :=
  let m : TileMap := TileMap.mk' width height ts.tile_size
  let grass_tiles := dictGetD ts.tile_types "grass" [0]
  let path_tiles := dictGetD ts.tile_types "paths" [0]
  let house_tiles := dictGetD ts.tile_types "houses" [0]
  let tree_tiles := dictGetD ts.tile_types "trees" [0]
  let grass_tiles := if grass_tiles = [] then [(0 : Int)] else grass_tiles
  let path_tiles := if path_tiles = [] then grass_tiles else path_tiles
  let house_tiles := if house_tiles = [] then grass_tiles else house_tiles
  let tree_tiles := if tree_tiles = [] then grass_tiles else tree_tiles
  -- fill the map with grass
  let fill := foldRng (intRange 0 height) m g (fun m g y =>
    foldRng (intRange 0 width) m g (fun m g x =>
      let r := Rng.choice grass_tiles 0 g
      (m.set_tile x y r.1, r.2)))
  let m := fill.1
  let r := fill.2.randInt 0 (width / 4)
  let path_start_x := r.1
  let g := r.2
  -- horizontal main path (path_width = 2)
  let hp := foldRng (intRange path_start_x width) m g (fun m g x =>
    foldRng (intRange 0 2) m g (fun m g pw =>
      let y := height / 2 + pw
      if 0 ≤ y ∧ y < height then
        let r := Rng.choice path_tiles 0 g
        (m.set_tile x y r.1, r.2)
      else (m, g)))
  let m := hp.1
  let g := hp.2
  -- vertical crossing path
  let cross_x := width / 2
  let vp := foldRng (intRange 0 height) m g (fun m g y =>
    foldRng (intRange 0 2) m g (fun m g pw =>
      let x := cross_x + pw
      if 0 ≤ x ∧ x < width then
        let r := Rng.choice path_tiles 0 g
        (m.set_tile x y r.1, r.2)
      else (m, g)))
  let m := vp.1
  let g := vp.2
  -- houses along the path
  let hs := foldRng (List.range 8) m g (fun m g _ =>
    placeHouseAttempts house_tiles cross_x width height 10 m g)
  let m := hs.1
  let g := hs.2
  -- trees in empty areas
  foldRng (intRange 0 (width * 3)) m g (fun m g _ =>
    let r1 := g.randInt 0 (width - 1)
    let tree_x := r1.1
    let r2 := r1.2.randInt 0 (height - 1)
    let tree_y := r2.1
    let g := r2.2
    let tile_id := m.get_tile_id tree_x tree_y
    if tile_id ∉ path_tiles ∧ tile_id ∉ house_tiles then
      let r3 := Rng.choice tree_tiles 0 g
      (m.set_tile tree_x tree_y r3.1, r3.2)
    else (m, g))

/-- `MapGenerator.generate_forest`.  The clearing radius test
`((x-cx)^2+(y-cy)^2)**0.5 < radius` is embedded as the equivalent
squared comparison (both sides nonnegative). -/
def generate_forest (ts : Tileset) (width height : Int) (g : Rng) :
    TileMap × Rng :=
  let m : TileMap := TileMap.mk' width height ts.tile_size
  let grass_tiles := dictGetD ts.tile_types "grass" [0]
  let tree_tiles := dictGetD ts.tile_types "trees" [0]
  let path_tiles := dictGetD ts.tile_types "paths" [0]
  let grass_tiles := if grass_tiles = [] then [(0 : Int)] else grass_tiles
  let tree_tiles := if tree_tiles = [] then grass_tiles else tree_tiles
  let path_tiles := if path_tiles = [] then grass_tiles else path_tiles
  -- fill the map with grass
  let fill := foldRng (intRange 0 height) m g (fun m g y =>
    foldRng (intRange 0 width) m g (fun m g x =>
      let r := Rng.choice grass_tiles 0 g
      (m.set_tile x y r.1, r.2)))
  let m := fill.1
  let g := fill.2
  -- start of the winding path, on a random edge
  let rside := Rng.choice [true, false] true g
  let start :=
    if rside.1 then
      let r1 := rside.2.randInt 0 (width - 1)
      let r2 := Rng.choice [(0 : Int), height - 1] 0 r1.2
      ((r1.1, r2.1), r2.2)
    else
      let r1 := Rng.choice [(0 : Int), width - 1] 0 rside.2
      let r2 := r1.2.randInt 0 (height - 1)
      ((r1.1, r2.1), r2.2)
  let g := start.2
  let rnum := g.randInt 3 5
  let num_points := rnum.1
  -- interior waypoints
  let pts := foldRng (List.range num_points.toNat) [start.1] rnum.2
    (fun ps g _ =>
      let r1 := g.randInt (width / 4) (width * 3 / 4)
      let r2 := r1.2.randInt (height / 4) (height * 3 / 4)
      (ps ++ [(r1.1, r2.1)], r2.2))
  let path_points := pts.1
  let g := pts.2
  -- connect consecutive waypoints
  let seg := foldRng (List.range (path_points.length - 1)) m g (fun m g i =>
    let p1 := path_points.getD i (0, 0)
    let p2 := path_points.getD (i + 1) (0, 0)
    let x1 := p1.1; let y1 := p1.2; let x2 := p2.1; let y2 := p2.2
    if x1 = x2 then
      foldRng (intRange (min y1 y2) (max y1 y2 + 1)) m g (fun m g y =>
        let r := Rng.choice path_tiles 0 g
        (m.set_tile x1 y r.1, r.2))
    else if y1 = y2 then
      foldRng (intRange (min x1 x2) (max x1 x2 + 1)) m g (fun m g x =>
        let r := Rng.choice path_tiles 0 g
        (m.set_tile x y1 r.1, r.2))
    else
      let dx := x2 - x1
      let dy := y2 - y1
      let steps := max |dx| |dy|
      let x_inc : ℚ := (dx : ℚ) / (steps : ℚ)
      let y_inc : ℚ := (dy : ℚ) / (steps : ℚ)
      let w := foldRng (List.range (steps.toNat + 1)) (m, ((x1 : ℚ), (y1 : ℚ))) g
        (fun s g _ =>
          let m := s.1
          let x := s.2.1
          let y := s.2.2
          let r := Rng.choice path_tiles 0 g
          ((m.set_tile (truncInt x) (truncInt y) r.1, (x + x_inc, y + y_inc)), r.2))
      (w.1.1, w.2))
  let m := seg.1
  let g := seg.2
  -- trees, avoiding the path
  let rdens := g.uniform (3/10) (5/10)
  let tree_density := rdens.1
  let tr := foldRng (intRange 0 height) m rdens.2 (fun m g y =>
    foldRng (intRange 0 width) m g (fun m g x =>
      if m.get_tile_id x y ∉ path_tiles then
        let r := g.rand01
        if r.1 < tree_density then
          let r2 := Rng.choice tree_tiles 0 r.2
          (m.set_tile x y r2.1, r2.2)
        else (m, r.2)
      else (m, g)))
  let m := tr.1
  let g := tr.2
  -- clearing at a random interior path point
  let rc := Rng.choice (path_points.drop 1) (0, 0) g
  let clearing_x := rc.1.1
  let clearing_y := rc.1.2
  let rr := rc.2.randInt 3 6
  let clearing_radius := rr.1
  foldRng (intRange (clearing_y - clearing_radius) (clearing_y + clearing_radius + 1))
      m rr.2 (fun m g y =>
    foldRng (intRange (clearing_x - clearing_radius) (clearing_x + clearing_radius + 1))
        m g (fun m g x =>
      if 0 ≤ x ∧ x < width ∧ 0 ≤ y ∧ y < height then
        if (x - clearing_x) ^ 2 + (y - clearing_y) ^ 2 < clearing_radius ^ 2 then
          if m.get_tile_id x y ∉ path_tiles then
            let r := Rng.choice grass_tiles 0 g
            (m.set_tile x y r.1, r.2)
          else (m, g)
        else (m, g)
      else (m, g)))

/-- Python's `str.lower()` on the ASCII identifiers used here (per-character
lowercasing of the underlying character list). -/
def pyLower (s : String) : String := ⟨s.data.map Char.toLower⟩

/-- `MapGenerator.generate_map_for_location`: dispatch on the lowercased
location type; anything unrecognized defaults to a village. -/
def generate_map_for_location (ts : Tileset) (location_type : String)
    (width height : Int) (g : Rng) : TileMap × Rng :=
  if pyLower location_type ∈ ["village", "town", "settlement"] then
    generate_village ts width height g
  else if pyLower location_type ∈ ["forest", "woods", "jungle"] then
    generate_forest ts width height g
  else
    generate_village ts width height g

end MapGenerator

/-! ## Zone system (`src/core/zone.py`) -/

/-- A heterogeneous Python value (quest rewards mix ints and strings). -/
inductive PyVal
  | int (n : Int)
  | str (s : String)
deriving DecidableEq, Repr

/-- `NPC.__init__` state (the pygame sprite surface is out of scope). -/
structure NPC where
  npc_id : String
  name : String
  role : String
  x : Int
  y : Int
  sprite_id : Int
  dialogue : List (String × String)
  quests : List String
deriving DecidableEq, Repr

/-- `NPC.set_dialogue`. -/
def NPC.set_dialogue (n : NPC) (d : List (String × String)) : NPC :=
  { n with dialogue := d }

/-- `NPC.add_quest`. -/
def NPC.add_quest (n : NPC) (quest_id : String) : NPC :=
  { n with quests := n.quests ++ [quest_id] }

/-- `Enemy.__init__` state. -/
structure Enemy where
  enemy_id : String
  name : String
  x : Int
  y : Int
  sprite_id : Int
  health : Int
  max_health : Int
  level : Int
  is_aggressive : Bool
deriving DecidableEq, Repr

/-- `Enemy(enemy_id, name, x, y, sprite_id, health)`. -/
def Enemy.mk' (enemy_id name : String) (x y sprite_id health : Int) : Enemy :=
  { enemy_id := enemy_id, name := name, x := x, y := y, sprite_id := sprite_id,
    health := health, max_health := health, level := 1, is_aggressive := true }

/-- One quest objective. -/
structure QuestObjective where
  description : String
  target : String
  amount : Int
  current : Int
deriving DecidableEq, Repr

/-- `Quest.__init__` state. -/
structure Quest where
  quest_id : String
  title : String
  description : String
  giver_id : String
  objectives : List QuestObjective
  rewards : List (String × PyVal)
  completed : Bool
deriving DecidableEq, Repr

/-- `Quest.add_objective`. -/
def Quest.add_objective (q : Quest) (description target : String) (amount : Int) :
    Quest :=
  { q with objectives := q.objectives ++
      [{ description := description, target := target, amount := amount, current := 0 }] }

/-- `Quest.set_rewards`. -/
def Quest.set_rewards (q : Quest) (rewards : List (String × PyVal)) : Quest :=
  { q with rewards := rewards }

/-- A zone connection entry (`Zone.add_connection` stores a dict with
`target_zone_id`, `x`, `y`). -/
structure Connection where
  target_zone_id : String
  x : Int
  y : Int
deriving DecidableEq, Repr

/-- A landmark entry (`Zone.add_landmark`). -/
structure Landmark where
  name : String
  x : Int
  y : Int
  description : String
deriving DecidableEq, Repr

/-- `Zone.__init__` state. -/
structure Zone where
  zone_id : String
  name : String
  description : String
  zone_type : String
  level_range : Int × Int
  map : Option TileMap
  npcs : List (String × NPC)
  enemies : List (String × Enemy)
  quests : List (String × Quest)
  landmarks : List Landmark
  connections : List (String × Connection)
deriving DecidableEq, Repr

namespace Zone

/-- `Zone(zone_id, name, description, zone_type, level_range)`. -/
def mk' (zone_id name description zone_type : String)
    (level_range : Int × Int) : Zone :=
  { zone_id := zone_id, name := name, description := description,
    zone_type := zone_type, level_range := level_range, map := none,
    npcs := [], enemies := [], quests := [], landmarks := [], connections := [] }

/-- `Zone.set_map`. -/
def set_map (z : Zone) (m : TileMap) : Zone := { z with map := some m }

/-- `Zone.add_npc`: keyed by `npc.npc_id`. -/
def add_npc (z : Zone) (npc : NPC) : Zone :=
  { z with npcs := dictSet z.npcs npc.npc_id npc }

/-- `Zone.add_enemy`: keyed by `enemy.enemy_id`. -/
def add_enemy (z : Zone) (e : Enemy) : Zone :=
  { z with enemies := dictSet z.enemies e.enemy_id e }

/-- `Zone.add_quest`: keyed by `quest.quest_id`. -/
def add_quest (z : Zone) (q : Quest) : Zone :=
  { z with quests := dictSet z.quests q.quest_id q }

/-- `Zone.add_landmark`. -/
def add_landmark (z : Zone) (name : String) (x y : Int) (description : String) :
    Zone :=
  { z with landmarks := z.landmarks ++
      [{ name := name, x := x, y := y, description := description }] }

/-- `Zone.add_connection`: keyed by direction. -/
def add_connection (z : Zone) (direction target_zone_id : String) (x y : Int) :
    Zone :=
  let conn : Connection := { target_zone_id := target_zone_id, x := x, y := y }
  { z with connections := dictSet z.connections direction conn }

/-- `zone.map.width` (population runs after `set_map`, so the map is
always present there; a missing map reads as width 0). -/
def mapW (z : Zone) : Int :=
  match z.map with
  | some m => m.width
  | none => 0

/-- `zone.map.height`. -/
def mapH (z : Zone) : Int :=
  match z.map with
  | some m => m.height
  | none => 0

end Zone

/-- Python `str.capitalize()`. -/
def pyCapitalize (s : String) : String :=
  (s.take 1).toUpper ++ (s.drop 1).toLower

/-- `ZoneManager.__init__` state. -/
structure ZoneManager where
  tileset : Tileset
  zones : List (String × Zone)
  current_zone_id : Option String
deriving DecidableEq, Repr

namespace ZoneManager

/-- The merchant NPC of `_add_merchant` (constructor plus its
`set_dialogue` call), before the quest is attached. -/
def merchantBase (zone : Zone) : NPC :=
  let merchant : NPC :=
    { npc_id := "merchant_01", name := "Marcus", role := "Merchant",
      x := zone.mapW / 2 + 2, y := zone.mapH / 2 - 2, sprite_id := 100,
      dialogue := [], quests := [] }
  merchant.set_dialogue
    [("greeting", "Welcome to my shop, traveler! I have the finest goods in all of Eldergrove."),
     ("farewell", "Come back soon!"),
     ("quest", "I need help restocking my supplies. The forest has grown dangerous lately...")]

/-- The "Gather Supplies" quest built inside `_add_merchant`: a 5-unit
wolf-pelt objective and its rewards. -/
def gatherSuppliesQuest : Quest :=
  let quest : Quest :=
    { quest_id := "gather_supplies", title := "Gather Supplies",
      description := "Help Marcus gather supplies from the forest",
      giver_id := "merchant_01", objectives := [], rewards := [],
      completed := false }
  let quest := quest.add_objective "Collect wolf pelts" "wolf" 5
  quest.set_rewards [("gold", PyVal.int 100), ("item", PyVal.str "leather_armor")]

/-- `ZoneManager._add_merchant`: the merchant NPC near the map center,
plus the "Gather Supplies" quest (5 wolf pelts) it gives. -/
def addMerchant (zone : Zone) : Zone :=
  let merchant := merchantBase zone
  let zone := zone.add_quest gatherSuppliesQuest
  zone.add_npc (merchant.add_quest gatherSuppliesQuest.quest_id)

/-- The innkeeper NPC of `_add_innkeeper` (constructor plus its
`set_dialogue` call). -/
def innkeeperNPC (zone : Zone) : NPC :=
  let innkeeper : NPC :=
    { npc_id := "innkeeper_01", name := "Elara", role := "Innkeeper",
      x := zone.mapW / 2 - 2, y := zone.mapH / 2 - 2, sprite_id := 101,
      dialogue := [], quests := [] }
  innkeeper.set_dialogue
    [("greeting", "Welcome to the Sleeping Dragon Inn! Can I get you a room or a drink?"),
     ("farewell", "Rest well, adventurer!"),
     ("quest", "We've been having trouble with rats in the cellar. Could you help clear them out?")]

/-- `ZoneManager._add_innkeeper`. -/
def addInnkeeper (zone : Zone) : Zone :=
  zone.add_npc (innkeeperNPC zone)

/-- The villager roles drawn from in `_add_villagers`. -/
def villagerRoles : List String := ["Farmer", "Blacksmith", "Guard", "Child", "Elder"]

/-- The villager NPC built inside `_add_villagers`' loop:
`NPC(f"villager_{i}", f"Villager {i+1}", role, x, y, 102+i)` followed by
its `set_dialogue` call. -/
def mkVillager (i : Nat) (role : String) (x y : Int) : NPC :=
  let villager : NPC :=
    { npc_id := "villager_" ++ Nat.repr i,
      name := "Villager " ++ Nat.repr (i + 1), role := role,
      x := x, y := y, sprite_id := 102 + (i : Int),
      dialogue := [], quests := [] }
  villager.set_dialogue
    [("greeting", "Hello there! I'm a " ++ role.toLower ++ " in this village."),
     ("farewell", "Goodbye!"),
     ("gossip", "I hear there are strange things happening in the forest lately...")]

/-- The `for i in range(count)` loop body of `_add_villagers`: draw a
role, then a walkable position, and add `villager_{i}`. -/
def addVillagersAux : Nat → Nat → Zone → Rng → Zone × Rng
  | 0, _, z, g => (z, g)
  | n + 1, i, z, g =>
      let r1 := Rng.choice villagerRoles "" g
      let r2 := r1.2.randInt 5 (z.mapW - 5)
      let r3 := r2.2.randInt 5 (z.mapH - 5)
      addVillagersAux n (i + 1) (z.add_npc (mkVillager i r1.1 r2.1 r3.1)) r3.2

/-- `ZoneManager._add_villagers(zone, count)`. -/
def addVillagers (z : Zone) (count : Nat) (g : Rng) : Zone × Rng :=
  addVillagersAux count 0 z g

/-- `ZoneManager._populate_village`: merchant, innkeeper, and 3–6
villagers (`_add_starter_quests` is a pass). -/
def populateVillage (z : Zone) (g : Rng) : Zone × Rng :=
  let z1 := addMerchant z
  let z2 := addInnkeeper z1
  let r := g.randInt 3 6
  addVillagers z2 r.1.toNat r.2

/-- The `for i in range(num_enemies)` loop of `_populate_forest`: level
draw, position draws, wolf with `health = level * 10`. -/
def addEnemiesAux : Nat → Nat → Zone → Rng → Zone × Rng
  | 0, _, z, g => (z, g)
  | n + 1, i, z, g =>
      let r1 := g.randInt z.level_range.1 z.level_range.2
      let enemy_level := r1.1
      let r2 := r1.2.randInt 5 (z.mapW - 5)
      let r3 := r2.2.randInt 5 (z.mapH - 5)
      let enemy := Enemy.mk' ("wolf_" ++ Nat.repr i) "Wolf" r2.1 r3.1 300
        (enemy_level * 10)
      addEnemiesAux n (i + 1) (z.add_enemy enemy) r3.2

/-- `ZoneManager._populate_forest`: 5–10 wolves levelled within the
zone's level range, and the Ancient Tree landmark at the map center. -/
def populateForest (z : Zone) (g : Rng) : Zone × Rng :=
  let r := g.randInt 5 10
  let w := addEnemiesAux r.1.toNat 0 z r.2
  let z := w.1.add_landmark "Ancient Tree" (w.1.mapW / 2) (w.1.mapH / 2)
    "A massive tree that seems to be hundreds of years old"
  (z, w.2)

/-- `ZoneManager.generate_zone`. -/
def generate_zone (mgr : ZoneManager) (zone_type : String)
    (level_range : Int × Int) (name? : Option String) (g : Rng) :
    Zone × ZoneManager × Rng :=
  let rid := g.randInt 1000 9999
  let zone_id := zone_type ++ "_" ++ intRepr level_range.1 ++ "_" ++
    intRepr level_range.2 ++ "_" ++ intRepr rid.1
  let g := rid.2
  -- `if not name:` — true for both an omitted name and an empty one
  let rname :=
    if name?.getD "" = "" then
      if zone_type = "village" then
        Rng.choice ["Eldergrove", "Riversend", "Oakvale", "Willowhaven"] "" g
      else if zone_type = "forest" then
        Rng.choice ["Darkwood", "Whispering Forest", "Ancient Grove", "Misty Woods"] "" g
      else
        let rn := g.randInt 1 10
        (pyCapitalize zone_type ++ " " ++ intRepr rn.1, rn.2)
    else (name?.getD "", g)
  let name := rname.1
  let g := rname.2
  let zone := Zone.mk' zone_id name
    ("A " ++ zone_type ++ " area for levels " ++ intRepr level_range.1 ++ "-" ++
      intRepr level_range.2)
    zone_type level_range
  let rmap :=
    if zone_type = "village" then MapGenerator.generate_village mgr.tileset 40 40 g
    else if zone_type = "forest" then MapGenerator.generate_forest mgr.tileset 40 40 g
    else MapGenerator.generate_village mgr.tileset 40 40 g
  let zone := zone.set_map rmap.1
  let g := rmap.2
  let rpop :=
    if zone_type = "village" then populateVillage zone g
    else if zone_type = "forest" then populateForest zone g
    else (zone, g)
  let zone := rpop.1
  let g := rpop.2
  (zone, { mgr with zones := dictSet mgr.zones zone_id zone }, g)

/-- `ZoneManager.get_zone`: registry lookup, `None` when unknown. -/
def get_zone (mgr : ZoneManager) (zone_id : String) : Option Zone :=
  mgr.zones.lookup zone_id

/-- `ZoneManager.set_current_zone`: a no-op on an unknown id. -/
def set_current_zone (mgr : ZoneManager) (zone_id : String) : ZoneManager :=
  if (mgr.zones.lookup zone_id).isSome then
    { mgr with current_zone_id := some zone_id }
  else mgr

/-- `ZoneManager.get_current_zone`. -/
def get_current_zone (mgr : ZoneManager) : Option Zone :=
  match mgr.current_zone_id with
  | some zid => mgr.zones.lookup zid
  | none => none

end ZoneManager

/-! ## Zone transitions (`src/core/scene.py`,
`GameplayScene._check_zone_transitions`) -/

/-- The reverse-direction table used when entering a new zone. -/
def reverseDirection (direction : String) : Option String :=
  [("north", "south"), ("south", "north"),
   ("east", "west"), ("west", "east")].lookup direction

/-- The zone-switch resolution of `_check_zone_transitions`, for a
direction whose connection point the player has reached: fetch the
target zone from the registry (no transition when it is unknown) and
derive the entry coordinate from the target's reverse-direction
connection back to the current zone, defaulting to (0, 0). -/
def resolveConnection (mgr : ZoneManager) (zone : Zone) (direction : String) :
    Option (Zone × Int × Int) :=
  match zone.connections.lookup direction with
  | none => none
  | some conn =>
      match mgr.get_zone conn.target_zone_id with
      | none => none
      | some target =>
          let entry : Int × Int :=
            match reverseDirection direction with
            | some rd =>
                match target.connections.lookup rd with
                | some rev =>
                    if rev.target_zone_id = zone.zone_id then (rev.x, rev.y)
                    else (0, 0)
                | none => (0, 0)
            | none => (0, 0)
          some (target, entry)

/-- C4: if zone A has an "east" connection targeting B (registered in
the manager) and B has a "west" connection back to A at (x2, y2), then
resolving A's east connection transitions into B with entry (x2, y2)
(and activating B's id succeeds); and whenever the target zone lacks a
reverse-direction connection, the entry coordinate defaults to (0, 0). -/
theorem zone_connection_roundtrip (mgr : ZoneManager) (A B : Zone)
    (x1 y1 x2 y2 : Int)
    (hA : A.connections.lookup "east" = some ⟨B.zone_id, x1, y1⟩)
    (hB : mgr.zones.lookup B.zone_id = some B)
    (hrev : B.connections.lookup "west" = some ⟨A.zone_id, x2, y2⟩) :
    resolveConnection mgr A "east" = some (B, x2, y2) ∧
    (mgr.set_current_zone B.zone_id).current_zone_id = some B.zone_id ∧
    (∀ (Z W : Zone) (dir : String) (conn : Connection),
      Z.connections.lookup dir = some conn →
      mgr.get_zone conn.target_zone_id = some W →
      (∀ rd, reverseDirection dir = some rd → W.connections.lookup rd = none) →
      resolveConnection mgr Z dir = some (W, 0, 0)) := by
  refine ⟨?_, ?_, ?_⟩
  · unfold resolveConnection ZoneManager.get_zone
    rw [hA]
    simp only
    rw [hB]
    simp only
    have hrd : reverseDirection "east" = some "west" := rfl
    rw [hrd]
    simp only
    rw [hrev]
    simp
  · unfold ZoneManager.set_current_zone
    simp [hB]
  · intro Z W dir conn hZ hW hno
    unfold resolveConnection
    rw [hZ]
    simp only
    rw [hW]
    cases hrd : reverseDirection dir with
    | none => simp
    | some rd =>
        simp only
        rw [hno rd hrd]

/-- The "A" zone of the C4 witness scenario. -/
def zoneAW : Zone := ( Zone.mk' "A" "Westfield" "" "village" (1, 3)).add_connection
  "east" "B" 39 20

/-- The "B" zone of the C4 witness scenario. -/
def zoneBW : Zone := ( Zone.mk' "B" "Eastwood" "" "forest" (2, 5)).add_connection
  "west" "A" 0 20

/-- The manager of the C4 witness scenario. -/
def mgrW : ZoneManager :=
  { tileset := { tile_size := 32, tile_types := [] },
    zones := [("A", zoneAW), ("B", zoneBW)], current_zone_id := none }

/-- Witness for C4: a concrete A↔B east/west pair resolves to B with the
entry coordinate of B's west connection. -/
theorem zone_connection_roundtrip_witness :
    zoneAW.connections.lookup "east" = some ⟨"B", 39, 20⟩ ∧
    mgrW.zones.lookup "B" = some zoneBW ∧
    zoneBW.connections.lookup "west" = some ⟨"A", 0, 20⟩ ∧
    resolveConnection mgrW zoneAW "east" = some (zoneBW, 0, 20) := by
  have h := zone_connection_roundtrip mgrW zoneAW zoneBW 39 20 0 20
    (by decide) (by decide) (by decide)
  exact ⟨by decide, by decide, by decide, h.1⟩

/-! ## Zone population properties (C5, C6) -/

theorem dictSet_fresh {d : List (κ × α)} {k : κ} (v : α)
    (h : k ∉ d.map Prod.fst) : dictSet d k v = d ++ [(k, v)] := by
  induction d with
  | nil => rfl
  | cons hd tl ih =>
      obtain ⟨a, b⟩ := hd
      simp only [List.map_cons, List.mem_cons] at h
      push_neg at h
      simp only [dictSet, List.cons_append]
      rw [if_neg (fun hh => h.1 hh.symm), ih h.2]

theorem lookup_append (d₁ d₂ : List (κ × α)) (k : κ) :
    (d₁ ++ d₂).lookup k =
      match d₁.lookup k with
      | some v => some v
      | none => d₂.lookup k := by
  induction d₁ with
  | nil => simp
  | cons hd tl ih =>
      obtain ⟨a, b⟩ := hd
      by_cases hk : (k == a) = true
      · simp [List.lookup, hk]
      · simp only [Bool.not_eq_true] at hk
        simp [List.lookup, hk, ih]

/-- Count of NPCs with a given role. -/
def roleCount (z : Zone) (r : String) : Nat :=
  z.npcs.countP (fun kv => kv.2.role == r)

/-- Count of NPCs whose role is one of the villager roles. -/
def villagerCount (z : Zone) : Nat :=
  z.npcs.countP (fun kv => decide (kv.2.role ∈ ZoneManager.villagerRoles))

theorem villager_role_spec (g : Rng) :
    (Rng.choice ZoneManager.villagerRoles "" g).1 ∈ ZoneManager.villagerRoles ∧
    (Rng.choice ZoneManager.villagerRoles "" g).1 ≠ "Merchant" ∧
    (Rng.choice ZoneManager.villagerRoles "" g).1 ≠ "Innkeeper" := by
  have h : (Rng.choice ZoneManager.villagerRoles "" g).1 ∈
      ZoneManager.villagerRoles := Rng.choice_mem g (by decide)
  refine ⟨h, ?_, ?_⟩ <;>
  · generalize hx : (Rng.choice ZoneManager.villagerRoles "" g).1 = x at h
    fin_cases h <;> decide

theorem villagerId_ne_base :
    ∀ i, i < 6 → "villager_" ++ Nat.repr i ≠ "merchant_01" ∧
      "villager_" ++ Nat.repr i ≠ "innkeeper_01" := by decide

theorem villagerId_inj :
    ∀ i, i < 6 → ∀ j, j < 6 →
      "villager_" ++ Nat.repr i = "villager_" ++ Nat.repr j → i = j := by decide

/-- Adding an NPC under a fresh id appends its entry. -/
theorem add_npc_npcs_fresh (z : Zone) (v : NPC)
    (hfresh : v.npc_id ∉ z.npcs.map Prod.fst) :
    (z.add_npc v).npcs = z.npcs ++ [(v.npc_id, v)] := by
  unfold Zone.add_npc
  simp only
  rw [dictSet_fresh v hfresh]

theorem roleCount_add_npc (z : Zone) (v : NPC) (r : String)
    (hfresh : v.npc_id ∉ z.npcs.map Prod.fst) :
    roleCount (z.add_npc v) r =
      roleCount z r + (if v.role == r then 1 else 0) := by
  unfold roleCount
  rw [add_npc_npcs_fresh z v hfresh, List.countP_append]
  simp [List.countP, List.countP.go]

theorem villagerCount_add_npc (z : Zone) (v : NPC)
    (hfresh : v.npc_id ∉ z.npcs.map Prod.fst) :
    villagerCount (z.add_npc v) =
      villagerCount z +
        (if v.role ∈ ZoneManager.villagerRoles then 1 else 0) := by
  unfold villagerCount
  rw [add_npc_npcs_fresh z v hfresh, List.countP_append]
  by_cases h : v.role ∈ ZoneManager.villagerRoles <;>
    simp [List.countP, List.countP.go, h]

theorem lookup_add_npc (z : Zone) (v : NPC) (k : String)
    (hfresh : v.npc_id ∉ z.npcs.map Prod.fst) (hne : v.npc_id ≠ k) :
    (z.add_npc v).npcs.lookup k = z.npcs.lookup k := by
  rw [add_npc_npcs_fresh z v hfresh, lookup_append]
  cases h : z.npcs.lookup k with
  | some w => rfl
  | none =>
      have : (k == v.npc_id) = false := by
        simp only [beq_eq_false_iff_ne]
        exact fun h' => hne h'.symm
      simp [List.lookup, this]

theorem mkVillager_role (i : Nat) (role : String) (x y : Int) :
    (ZoneManager.mkVillager i role x y).role = role := rfl

theorem mkVillager_id (i : Nat) (role : String) (x y : Int) :
    (ZoneManager.mkVillager i role x y).npc_id = "villager_" ++ Nat.repr i := rfl

/-- Invariants of the villager-adding loop: each iteration appends a
fresh `villager_i` entry whose role is one of the villager roles,
leaving the merchant/innkeeper counts, the quests, the name, the type
and the merchant entry untouched. -/
theorem addVillagersAux_props : ∀ (n i : Nat) (z : Zone) (g : Rng),
    i + n ≤ 6 →
    (∀ k ∈ z.npcs.map Prod.fst,
      k = "merchant_01" ∨ k = "innkeeper_01" ∨
      ∃ j, j < i ∧ k = "villager_" ++ Nat.repr j) →
    roleCount (ZoneManager.addVillagersAux n i z g).1 "Merchant" =
      roleCount z "Merchant" ∧
    roleCount (ZoneManager.addVillagersAux n i z g).1 "Innkeeper" =
      roleCount z "Innkeeper" ∧
    villagerCount (ZoneManager.addVillagersAux n i z g).1 =
      villagerCount z + n ∧
    (ZoneManager.addVillagersAux n i z g).1.name = z.name ∧
    (ZoneManager.addVillagersAux n i z g).1.zone_type = z.zone_type ∧
    (ZoneManager.addVillagersAux n i z g).1.quests = z.quests ∧
    (ZoneManager.addVillagersAux n i z g).1.npcs.lookup "merchant_01" =
      z.npcs.lookup "merchant_01" := by
  intro n
  induction n with
  | zero =>
      intro i z g _ _
      simp [ZoneManager.addVillagersAux]
  | succ m ih =>
      intro i z g hle hinv
      have hi6 : i < 6 := by omega
      obtain ⟨hmem, hnm, hni⟩ := villager_role_spec g
      simp only [ZoneManager.addVillagersAux]
      set role := (Rng.choice ZoneManager.villagerRoles "" g).1 with hrole
      set g1 := (Rng.choice ZoneManager.villagerRoles "" g).2 with hg1
      set rx := g1.randInt 5 (z.mapW - 5) with hrx
      set ry := rx.2.randInt 5 (z.mapH - 5) with hry
      set v := ZoneManager.mkVillager i role rx.1 ry.1 with hv
      have hvid : v.npc_id = "villager_" ++ Nat.repr i := by
        rw [hv, mkVillager_id]
      have hvrole : v.role = role := by
        rw [hv, mkVillager_role]
      have hfresh : v.npc_id ∉ z.npcs.map Prod.fst := by
        rw [hvid]
        intro hmem'
        rcases hinv _ hmem' with h | h | ⟨j, hj, h⟩
        · exact (villagerId_ne_base i hi6).1 h
        · exact (villagerId_ne_base i hi6).2 h
        · have := villagerId_inj i hi6 j (by omega) h
          omega
      have hinv' : ∀ k ∈ (z.add_npc v).npcs.map Prod.fst,
          k = "merchant_01" ∨ k = "innkeeper_01" ∨
          ∃ j, j < i + 1 ∧ k = "villager_" ++ Nat.repr j := by
        rw [add_npc_npcs_fresh z v hfresh]
        intro k hk
        rw [List.map_append, List.mem_append] at hk
        rcases hk with hk | hk
        · rcases hinv _ hk with h | h | ⟨j, hj, h⟩
          · exact Or.inl h
          · exact Or.inr (Or.inl h)
          · exact Or.inr (Or.inr ⟨j, by omega, h⟩)
        · simp only [List.map_cons, List.map_nil, List.mem_singleton] at hk
          exact Or.inr (Or.inr ⟨i, by omega, by rw [hk, hvid]⟩)
      have H := ih (i + 1) (z.add_npc v) ry.2 (by omega) hinv'
      refine ⟨?_, ?_, ?_, ?_, ?_, ?_, ?_⟩
      · rw [H.1, roleCount_add_npc z v _ hfresh, hvrole]
        have hb : (role == "Merchant") = false := by
          simp only [beq_eq_false_iff_ne]; exact hnm
        simp [hb]
      · rw [H.2.1, roleCount_add_npc z v _ hfresh, hvrole]
        have hb : (role == "Innkeeper") = false := by
          simp only [beq_eq_false_iff_ne]; exact hni
        simp [hb]
      · rw [H.2.2.1, villagerCount_add_npc z v hfresh, hvrole]
        simp only [if_pos hmem]
        omega
      · rw [H.2.2.2.1]; rfl
      · rw [H.2.2.2.2.1]; rfl
      · rw [H.2.2.2.2.2.1]; rfl
      · rw [H.2.2.2.2.2.2, lookup_add_npc z v _ hfresh]
        rw [hvid]
        exact (villagerId_ne_base i hi6).1


/-- Properties of `_populate_village` on a freshly generated zone:
exactly one merchant, one innkeeper, 3–6 villagers, and the
"gather_supplies" quest (5-unit objective) attached to the merchant. -/
theorem merchant_final_spec (z : Zone) :
    ((ZoneManager.merchantBase z).add_quest
      ZoneManager.gatherSuppliesQuest.quest_id).role = "Merchant" ∧
    ((ZoneManager.merchantBase z).add_quest
      ZoneManager.gatherSuppliesQuest.quest_id).npc_id = "merchant_01" ∧
    "gather_supplies" ∈ ((ZoneManager.merchantBase z).add_quest
      ZoneManager.gatherSuppliesQuest.quest_id).quests := by
  refine ⟨rfl, rfl, ?_⟩
  simp [ZoneManager.merchantBase, ZoneManager.gatherSuppliesQuest,
    NPC.add_quest, NPC.set_dialogue, Quest.add_objective, Quest.set_rewards]

theorem gatherSuppliesQuest_spec :
    ZoneManager.gatherSuppliesQuest.quest_id = "gather_supplies" ∧
    ZoneManager.gatherSuppliesQuest.giver_id = "merchant_01" ∧
    ZoneManager.gatherSuppliesQuest.objectives.map QuestObjective.amount = [5] := by
  refine ⟨rfl, rfl, ?_⟩
  simp [ZoneManager.gatherSuppliesQuest, Quest.add_objective, Quest.set_rewards]

/-- Properties of `_populate_village` on a freshly generated zone:
exactly one merchant, one innkeeper, 3–6 villagers, and the
"gather_supplies" quest (5-unit objective) attached to the merchant. -/
theorem populateVillage_props (z : Zone) (g : Rng)
    (hnp : z.npcs = []) (hq : z.quests = []) :
    roleCount (ZoneManager.populateVillage z g).1 "Merchant" = 1 ∧
    roleCount (ZoneManager.populateVillage z g).1 "Innkeeper" = 1 ∧
    3 ≤ villagerCount (ZoneManager.populateVillage z g).1 ∧
    villagerCount (ZoneManager.populateVillage z g).1 ≤ 6 ∧
    (ZoneManager.populateVillage z g).1.name = z.name ∧
    (ZoneManager.populateVillage z g).1.zone_type = z.zone_type ∧
    (∃ q : Quest,
      (ZoneManager.populateVillage z g).1.quests.lookup "gather_supplies" = some q ∧
      q.giver_id = "merchant_01" ∧
      q.objectives.map QuestObjective.amount = [5]) ∧
    (∃ m : NPC,
      (ZoneManager.populateVillage z g).1.npcs.lookup "merchant_01" = some m ∧
      m.role = "Merchant" ∧ "gather_supplies" ∈ m.quests) := by
  simp only [ZoneManager.populateVillage, ZoneManager.addVillagers]
  set zi := ZoneManager.addInnkeeper (ZoneManager.addMerchant z) with hzi
  set M := (ZoneManager.merchantBase z).add_quest
    ZoneManager.gatherSuppliesQuest.quest_id with hM
  set I := ZoneManager.innkeeperNPC (ZoneManager.addMerchant z) with hI
  have hlist : zi.npcs = [("merchant_01", M), ("innkeeper_01", I)] := by
    rw [hzi]
    unfold ZoneManager.addInnkeeper ZoneManager.addMerchant
    simp only [Zone.add_npc, Zone.add_quest, hnp]
    rfl
  have hquests : zi.quests = [("gather_supplies", ZoneManager.gatherSuppliesQuest)] := by
    rw [hzi]
    unfold ZoneManager.addInnkeeper ZoneManager.addMerchant
    simp only [Zone.add_npc, Zone.add_quest, hq]
    rfl
  have hMspec := merchant_final_spec z
  rw [← hM] at hMspec
  have hIrole : I.role = "Innkeeper" := by rw [hI]; rfl
  have hzname : zi.name = z.name ∧ zi.zone_type = z.zone_type := by
    rw [hzi]
    unfold ZoneManager.addInnkeeper ZoneManager.addMerchant
    exact ⟨rfl, rfl⟩
  have hinv : ∀ k ∈ zi.npcs.map Prod.fst,
      k = "merchant_01" ∨ k = "innkeeper_01" ∨
      ∃ j, j < 0 ∧ k = "villager_" ++ Nat.repr j := by
    rw [hlist]
    intro k hk
    simp only [List.map_cons, List.map_nil, List.mem_cons,
      List.mem_singleton] at hk
    rcases hk with h | h | h
    · exact Or.inl h
    · exact Or.inr (Or.inl h)
    · simp at h
  have hcb := @Rng.randInt_le g 3 6 (by norm_num)
  have hn3 : 3 ≤ (g.randInt 3 6).1.toNat := by omega
  have hn6 : (g.randInt 3 6).1.toNat ≤ 6 := by omega
  have H := addVillagersAux_props (g.randInt 3 6).1.toNat 0 zi (g.randInt 3 6).2
    (by omega) hinv
  have hbM : (M.role == "Merchant") = true := by
    rw [hMspec.1]; rfl
  have hbMI : (I.role == "Merchant") = false := by
    rw [hIrole]; rfl
  have hbIM : (M.role == "Innkeeper") = false := by
    rw [hMspec.1]; rfl
  have hbI : (I.role == "Innkeeper") = true := by
    rw [hIrole]; rfl
  have hdM : decide (M.role ∈ ZoneManager.villagerRoles) = false := by
    rw [hMspec.1]; rfl
  have hdI : decide (I.role ∈ ZoneManager.villagerRoles) = false := by
    rw [hIrole]; rfl
  have hvc : villagerCount zi = 0 := by
    unfold villagerCount
    rw [hlist]
    simp [List.countP_cons, hdM, hdI]
  refine ⟨?_, ?_, ?_, ?_, ?_, ?_, ?_, ?_⟩
  · rw [H.1]
    unfold roleCount
    rw [hlist]
    simp [List.countP_cons, hbM, hbMI]
  · rw [H.2.1]
    unfold roleCount
    rw [hlist]
    simp [List.countP_cons, hbIM, hbI]
  · rw [H.2.2.1, hvc]; omega
  · rw [H.2.2.1, hvc]; omega
  · rw [H.2.2.2.1]; exact hzname.1
  · rw [H.2.2.2.2.1]; exact hzname.2
  · refine ⟨ZoneManager.gatherSuppliesQuest, ?_,
      gatherSuppliesQuest_spec.2.1, gatherSuppliesQuest_spec.2.2⟩
    rw [H.2.2.2.2.2.1, hquests]
    rfl
  · refine ⟨M, ?_, hMspec.1, hMspec.2.2⟩
    rw [H.2.2.2.2.2.2, hlist]
    rfl

/-- C5 (amended): for every `generate_zone("village", (lo, hi), name)`
call with a *non-empty* name supplied, the returned Zone carries exactly
that name, zone_type "village", exactly one merchant NPC, exactly one
innkeeper NPC, between 3 and 6 villager NPCs, and the "gather_supplies"
quest with a 5-unit objective attached to the merchant. -/
theorem village_zone_generation (mgr : ZoneManager) (lo hi : Int)
    (name : String) (g : Rng) (hname : name ≠ "") :
    (mgr.generate_zone "village" (lo, hi) (some name) g).1.name = name ∧
    (mgr.generate_zone "village" (lo, hi) (some name) g).1.zone_type = "village" ∧
    roleCount (mgr.generate_zone "village" (lo, hi) (some name) g).1 "Merchant" = 1 ∧
    roleCount (mgr.generate_zone "village" (lo, hi) (some name) g).1 "Innkeeper" = 1 ∧
    3 ≤ villagerCount (mgr.generate_zone "village" (lo, hi) (some name) g).1 ∧
    villagerCount (mgr.generate_zone "village" (lo, hi) (some name) g).1 ≤ 6 ∧
    (∃ q : Quest,
      (mgr.generate_zone "village" (lo, hi) (some name) g).1.quests.lookup
        "gather_supplies" = some q ∧
      q.giver_id = "merchant_01" ∧
      q.objectives.map QuestObjective.amount = [5]) ∧
    (∃ m : NPC,
      (mgr.generate_zone "village" (lo, hi) (some name) g).1.npcs.lookup
        "merchant_01" = some m ∧
      m.role = "Merchant" ∧ "gather_supplies" ∈ m.quests) := by
  simp only [ZoneManager.generate_zone, Option.getD_some, hname, if_false,
    if_true, reduceIte]
  have P := populateVillage_props
    ((Zone.mk'
        ("village" ++ "_" ++ intRepr lo ++ "_" ++ intRepr hi ++ "_" ++
          intRepr (g.randInt 1000 9999).1)
        name
        ("A " ++ "village" ++ " area for levels " ++ intRepr lo ++ "-" ++
          intRepr hi)
        "village" (lo, hi)).set_map
      (MapGenerator.generate_village mgr.tileset 40 40 (g.randInt 1000 9999).2).1)
    (MapGenerator.generate_village mgr.tileset 40 40 (g.randInt 1000 9999).2).2
    rfl rfl
  exact ⟨P.2.2.2.2.1.trans rfl, P.2.2.2.2.2.1.trans rfl, P.1, P.2.1,
    P.2.2.1, P.2.2.2.1, P.2.2.2.2.2.2.1, P.2.2.2.2.2.2.2⟩

/-- A concrete manager for the C5 scenarios. -/
def mgrV : ZoneManager :=
  { tileset := setDefaultTileTypes 60, zones := [], current_zone_id := none }

/-- Witness for C5's amended theorem at the spec's concrete scenario
(`"Eldergrove"`, level range (1, 3)). -/
theorem village_zone_generation_witness :
    ("Eldergrove" : String) ≠ "" ∧
    (mgrV.generate_zone "village" (1, 3) (some "Eldergrove") ⟨0⟩).1.name =
      "Eldergrove" ∧
    roleCount (mgrV.generate_zone "village" (1, 3) (some "Eldergrove") ⟨0⟩).1
      "Merchant" = 1 :=
  ⟨by decide,
   (village_zone_generation mgrV 1 3 "Eldergrove" ⟨0⟩ (by decide)).1,
   (village_zone_generation mgrV 1 3 "Eldergrove" ⟨0⟩ (by decide)).2.2.1⟩

/-- C5 counterexample: supplying the empty string as the name — a
supplied name — does not yield a zone with that name: `if not name:`
treats `""` like an omitted name and draws a random village name, which
is never empty. -/
theorem village_zone_empty_name_generic (mgr : ZoneManager) (lo hi : Int)
    (g : Rng) :
    (mgr.generate_zone "village" (lo, hi) (some "") g).1.name ∈
      ["Eldergrove", "Riversend", "Oakvale", "Willowhaven"] := by
  simp only [ZoneManager.generate_zone, Option.getD_some, reduceIte]
  rw [(populateVillage_props _ _ rfl rfl).2.2.2.2.1]
  simp only [Zone.set_map, Zone.mk']
  exact Rng.choice_mem (l := ["Eldergrove", "Riversend", "Oakvale", "Willowhaven"])
    (d := "") _ (by decide)

/-- C5 counterexample (continued): concrete instance at manager `mgrV`,
level range (1, 3), supplied name `""`, generator state 0. -/
theorem village_zone_empty_name_counterexample :
    (mgrV.generate_zone "village" (1, 3) (some "") ⟨0⟩).1.name ≠ "" := by
  have h := village_zone_empty_name_generic mgrV 1 3 ⟨0⟩
  intro hc
  rw [hc] at h
  simp at h

/-! ## Forest population properties (C6) -/

theorem wolfId_inj :
    ∀ i, i < 10 → ∀ j, j < 10 →
      "wolf_" ++ Nat.repr i = "wolf_" ++ Nat.repr j → i = j := by decide

theorem add_enemy_enemies_fresh (z : Zone) (e : Enemy)
    (hfresh : e.enemy_id ∉ z.enemies.map Prod.fst) :
    (z.add_enemy e).enemies = z.enemies ++ [(e.enemy_id, e)] := by
  unfold Zone.add_enemy
  simp only
  rw [dictSet_fresh e hfresh]

/-- Invariants of the wolf-adding loop: each iteration appends a fresh
`wolf_i` whose health is `level * 10` for a level drawn inside the
zone's level range. -/
theorem addEnemiesAux_props : ∀ (n i : Nat) (z : Zone) (g : Rng),
    i + n ≤ 10 →
    z.level_range.1 ≤ z.level_range.2 →
    (∀ k ∈ z.enemies.map Prod.fst, ∃ j, j < i ∧ k = "wolf_" ++ Nat.repr j) →
    (ZoneManager.addEnemiesAux n i z g).1.enemies.length =
      z.enemies.length + n ∧
    (∀ kv ∈ (ZoneManager.addEnemiesAux n i z g).1.enemies,
      kv ∈ z.enemies ∨
      ∃ lvl : Int, z.level_range.1 ≤ lvl ∧ lvl ≤ z.level_range.2 ∧
        kv.2.health = lvl * 10) ∧
    (∀ k ∈ (ZoneManager.addEnemiesAux n i z g).1.enemies.map Prod.fst,
      ∃ j, j < i + n ∧ k = "wolf_" ++ Nat.repr j) := by
  intro n
  induction n with
  | zero =>
      intro i z g _ _ hinv
      refine ⟨by simp [ZoneManager.addEnemiesAux], ?_, ?_⟩
      · intro kv hkv
        exact Or.inl (by simpa [ZoneManager.addEnemiesAux] using hkv)
      · intro k hk
        obtain ⟨j, hj, h⟩ := hinv k (by simpa [ZoneManager.addEnemiesAux] using hk)
        exact ⟨j, by omega, h⟩
  | succ m ih =>
      intro i z g hle hlr hinv
      have hi10 : i < 10 := by omega
      simp only [ZoneManager.addEnemiesAux]
      set lvl := (g.randInt z.level_range.1 z.level_range.2).1 with hlvl
      set e := Enemy.mk' ("wolf_" ++ Nat.repr i) "Wolf"
        ((g.randInt z.level_range.1 z.level_range.2).2.randInt 5 (z.mapW - 5)).1
        (((g.randInt z.level_range.1 z.level_range.2).2.randInt 5
            (z.mapW - 5)).2.randInt 5 (z.mapH - 5)).1
        300 (lvl * 10) with he
      have heid : e.enemy_id = "wolf_" ++ Nat.repr i := rfl
      have hehp : e.health = lvl * 10 := rfl
      have hlb := @Rng.randInt_le g z.level_range.1 z.level_range.2 hlr
      have hfresh : e.enemy_id ∉ z.enemies.map Prod.fst := by
        rw [heid]
        intro hmem
        obtain ⟨j, hj, h⟩ := hinv _ hmem
        have := wolfId_inj i hi10 j (by omega) h
        omega
      have hlist := add_enemy_enemies_fresh z e hfresh
      have hlr' : (z.add_enemy e).level_range.1 ≤ (z.add_enemy e).level_range.2 := hlr
      have hinv' : ∀ k ∈ (z.add_enemy e).enemies.map Prod.fst,
          ∃ j, j < i + 1 ∧ k = "wolf_" ++ Nat.repr j := by
        rw [hlist]
        intro k hk
        rw [List.map_append, List.mem_append] at hk
        rcases hk with hk | hk
        · obtain ⟨j, hj, h⟩ := hinv _ hk
          exact ⟨j, by omega, h⟩
        · simp only [List.map_cons, List.map_nil, List.mem_singleton] at hk
          exact ⟨i, by omega, by rw [hk, heid]⟩
      have H := ih (i + 1) (z.add_enemy e)
        ((((g.randInt z.level_range.1 z.level_range.2).2.randInt 5
            (z.mapW - 5)).2.randInt 5 (z.mapH - 5)).2) (by omega) hlr' hinv'
      refine ⟨?_, ?_, ?_⟩
      · rw [H.1, hlist]
        simp
        omega
      · intro kv hkv
        rcases H.2.1 kv hkv with hin | ⟨l, h1, h2, h3⟩
        · rw [hlist, List.mem_append] at hin
          rcases hin with hin | hin
          · exact Or.inl hin
          · simp only [List.mem_singleton] at hin
            refine Or.inr ⟨lvl, hlb.1, hlb.2, ?_⟩
            rw [hin]
            exact hehp
        · exact Or.inr ⟨l, h1, h2, h3⟩
      · intro k hk
        obtain ⟨j, hj, h⟩ := H.2.2 k hk
        exact ⟨j, by omega, h⟩

/-- Properties of `_populate_forest` on a freshly generated zone:
5–10 wolves, each with health `level * 10` for a level within the
zone's level range. -/
theorem populateForest_props (z : Zone) (g : Rng)
    (he : z.enemies = []) (hlr : z.level_range.1 ≤ z.level_range.2) :
    5 ≤ (ZoneManager.populateForest z g).1.enemies.length ∧
    (ZoneManager.populateForest z g).1.enemies.length ≤ 10 ∧
    ∀ kv ∈ (ZoneManager.populateForest z g).1.enemies,
      ∃ lvl : Int, z.level_range.1 ≤ lvl ∧ lvl ≤ z.level_range.2 ∧
        kv.2.health = lvl * 10 := by
  simp only [ZoneManager.populateForest, Zone.add_landmark]
  have hb := @Rng.randInt_le g 5 10 (by norm_num)
  have hn5 : 5 ≤ (g.randInt 5 10).1.toNat := by omega
  have hn10 : (g.randInt 5 10).1.toNat ≤ 10 := by omega
  have hinv : ∀ k ∈ z.enemies.map Prod.fst,
      ∃ j, j < 0 ∧ k = "wolf_" ++ Nat.repr j := by
    rw [he]
    simp
  have H := addEnemiesAux_props (g.randInt 5 10).1.toNat 0 z (g.randInt 5 10).2
    (by omega) hlr hinv
  refine ⟨?_, ?_, ?_⟩
  · rw [H.1, he]
    simpa using hn5
  · rw [H.1, he]
    simpa using hn10
  · intro kv hkv
    rcases H.2.1 kv hkv with hin | hfact
    · rw [he] at hin
      simp at hin
    · exact hfact

/-- `ZoneManager.generate_zone "forest"` with level range (2, 5) holds
between 5 and 10 enemies inclusive, each with health `level * 10` for a
level drawn from the zone's level range — hence in {20, 30, 40, 50}.
(The basic-path half of C6; see the amended theorem below for the
enhanced path.) -/
theorem forest_zone_enemy_population (mgr : ZoneManager)
    (name? : Option String) (g : Rng) :
    5 ≤ (mgr.generate_zone "forest" (2, 5) name? g).1.enemies.length ∧
    (mgr.generate_zone "forest" (2, 5) name? g).1.enemies.length ≤ 10 ∧
    ∀ kv ∈ (mgr.generate_zone "forest" (2, 5) name? g).1.enemies,
      (∃ lvl : Int, 2 ≤ lvl ∧ lvl ≤ 5 ∧ kv.2.health = lvl * 10) ∧
      kv.2.health ∈ ([20, 30, 40, 50] : List Int) := by
  simp only [ZoneManager.generate_zone, String.reduceEq, reduceIte]
  refine ⟨(populateForest_props _ _ rfl ((by norm_num : (2 : Int) ≤ 5))).1,
    (populateForest_props _ _ rfl ((by norm_num : (2 : Int) ≤ 5))).2.1, ?_⟩
  intro kv hkv
  have hfact := (populateForest_props _ _ rfl
    ((by norm_num : (2 : Int) ≤ 5))).2.2 kv hkv
  obtain ⟨lvl, h1, h2, h3⟩ := hfact
  have h1' : (2 : Int) ≤ lvl := h1
  have h2' : lvl ≤ 5 := h2
  refine ⟨⟨lvl, h1', h2', h3⟩, ?_⟩
  rw [h3]
  interval_cases lvl <;> simp

/-! ## EnhancedMapGenerator (`src/core/enhanced_tilemap.py`) -/

/-- An `EnhancedMapGenerator`: its tileset and the `PerlinNoise()`
instance created (unseeded) in `__init__`. -/
structure EnhancedMapGenerator where
  tileset : EnhancedTileset
  perlin : PerlinNoise
deriving DecidableEq, Repr

namespace EnhancedMapGenerator

/-- `EnhancedMapGenerator.__init__`: the unseeded `PerlinNoise()`
shuffles its table from the current global generator state. -/
def init (ts : EnhancedTileset) (g : Rng) : EnhancedMapGenerator × Rng :=
  let pr := PerlinNoise.init none g
  ({ tileset := ts, perlin := pr.1 }, pr.2)

/-- Write into a feature/ground layer, guarded exactly like the
source's explicit `0 <= x < width and 0 <= y < height` checks. -/
def layerSet (layer : List (List α)) (x y : Int) (v : α) : List (List α) :=
  if 0 ≤ y ∧ y.toNat < layer.length ∧ 0 ≤ x ∧
      x.toNat < (layer.getD y.toNat []).length then
    layer.set y.toNat ((layer.getD y.toNat []).set x.toNat v)
  else layer

/-- `EnhancedMapGenerator._generate_terrain`: per-cell height-threshold
terrain with a `GRASS_PLAIN` fallback (then 0) when resolution fails;
the thresholds 0.4, 0.6, 0.3 are the exact rationals `mkRat 2 5`,
`mkRat 3 5`, `mkRat 3 10`.
Zone types other than "village"/"forest" leave `tile_id` as `None`, so
every cell goes through the fallback. -/
def generateTerrain (st : TileIndexer) (width height : Nat)
    (heightmap : List (List ℚ)) (zone_type : String) (g : Rng) :
    List (List Int) × Rng :=
  foldRng (List.range height) [] g (fun rows g y =>
    let r := foldRng (List.range width) [] g (fun row g x =>
      let height_val := (heightmap.getD y []).getD x 0
      let rcell : Option Nat × Rng :=
        if zone_type = "village" then
          if height_val < mkRat 2 5 then get_tile_for_element st SceneElement.GRASS_PLAIN g
          else if height_val < mkRat 3 5 then get_tile_for_element st SceneElement.GRASS_WILD g
          else get_tile_for_element st SceneElement.DIRT_PATH g
        else if zone_type = "forest" then
          if height_val < mkRat 3 10 then get_tile_for_element st SceneElement.GRASS_PLAIN g
          else if height_val < mkRat 3 5 then get_tile_for_element st SceneElement.GRASS_WILD g
          else get_tile_for_element st SceneElement.DIRT_PATH g
        else (none, g)
      let rfinal : Int × Rng :=
        match rcell.1 with
        | some tid => ((tid : Int), rcell.2)
        | none =>
            let rfb := get_tile_for_element st SceneElement.GRASS_PLAIN rcell.2
            match rfb.1 with
            | some tid => ((tid : Int), rfb.2)
            | none => (0, rfb.2)
      (row ++ [rfinal.1], rfinal.2))
    (rows ++ [r.1], r.2))

/-- One line segment of `_create_path` (the incremental error walk). -/
def createPathSegment (layer : List (List (Option Int))) (path_tile : Int)
    (x1 y1 x2 y2 : Int) : List (List (Option Int)) :=
  let dx := |x2 - x1|
  let dy := |y2 - y1|
  let n := 1 + dx + dy
  let x_inc : Int := if x2 > x1 then 1 else -1
  let y_inc : Int := if y2 > y1 then 1 else -1
  let s0 : List (List (Option Int)) × Int × Int × Int := (layer, x1, y1, dx - dy)
  let sF := (List.range n.toNat).foldl (fun s _ =>
    let layer := layerSet s.1 s.2.1 s.2.2.1 (some path_tile)
    if s.2.2.2 > 0 then (layer, s.2.1 + x_inc, s.2.2.1, s.2.2.2 - 2 * dy)
    else (layer, s.2.1, s.2.2.1 + y_inc, s.2.2.2 + 2 * dx)) s0
  sF.1

/-- `EnhancedMapGenerator._create_path`: resolve the dirt-path tile once
(abort when unresolvable), then connect consecutive waypoints. -/
def createPath (st : TileIndexer) (layer : List (List (Option Int)))
    (points : List (Int × Int)) (g : Rng) :
    List (List (Option Int)) × Rng :=
  if points = [] then (layer, g)
  else
    let rp := get_tile_for_element st SceneElement.DIRT_PATH g
    match rp.1 with
    | none => (layer, rp.2)
    | some path_tile =>
        ((List.range (points.length - 1)).foldl (fun layer i =>
          let p1 := points.getD i (0, 0)
          let p2 := points.getD (i + 1) (0, 0)
          createPathSegment layer (path_tile : Int) p1.1 p1.2 p2.1 p2.2) layer,
         rp.2)

/-- `EnhancedMapGenerator._generate_path_points`: 3 random waypoints. -/
def generatePathPoints (width height : Nat) (g : Rng) :
    List (Int × Int) × Rng :=
  foldRng (List.range 3) [] g (fun ps g _ =>
    let r1 := g.randInt 0 ((width : Int) - 1)
    let r2 := r1.2.randInt 0 ((height : Int) - 1)
    (ps ++ [(r1.1, r2.1)], r2.2))

/-- `EnhancedMapGenerator._find_house_locations`: clamped random offsets
around each path point. -/
def findHouseLocations (path_points : List (Int × Int)) (width height : Nat)
    (g : Rng) : List (Int × Int) × Rng :=
  foldRng path_points [] g (fun hs g p =>
    let r1 := g.randInt (-3) 3
    let r2 := r1.2.randInt (-3) 3
    let new_x := max 0 (min ((width : Int) - 1) (p.1 + r1.1))
    let new_y := max 0 (min ((height : Int) - 1) (p.2 + r2.1))
    (hs ++ [(new_x, new_y)], r2.2))

/-- `EnhancedMapGenerator._generate_village_features`: paths between 3
waypoints, then stone-wall structures near them. -/
def generateVillageFeatures (st : TileIndexer)
    (layer : List (List (Option Int))) (width height : Nat) (g : Rng) :
    List (List (Option Int)) × Rng :=
  let rp := generatePathPoints width height g
  let path_points := rp.1
  let rl := createPath st layer path_points rp.2
  let rh := findHouseLocations path_points width height rl.2
  foldRng rh.1 rl.1 rh.2 (fun layer g p =>
    if 0 ≤ p.1 ∧ p.1 < (width : Int) ∧ 0 ≤ p.2 ∧ p.2 < (height : Int) then
      let rw := get_tile_for_element st SceneElement.WALL_STONE g
      match rw.1 with
      | some wall_tile => (layerSet layer p.1 p.2 (some (wall_tile : Int)), rw.2)
      | none => (layer, rw.2)
    else (layer, g))

/-- `EnhancedMapGenerator._generate_forest_features`: each cell gets a
feature with 10% probability — 80% a tree, else a rock (the
probabilities 0.1 and 0.8 are the exact rationals `mkRat 1 10` and
`mkRat 4 5`). -/
def generateForestFeatures (st : TileIndexer)
    (layer : List (List (Option Int))) (width height : Nat) (g : Rng) :
    List (List (Option Int)) × Rng :=
  foldRng (List.range height) layer g (fun layer g y =>
    foldRng (List.range width) layer g (fun layer g x =>
      let r1 := g.rand01
      if r1.1 < mkRat 1 10 then
        let r2 := r1.2.rand01
        if r2.1 < mkRat 4 5 then
          let rt := get_tile_for_element st SceneElement.TREE r2.2
          match rt.1 with
          | some tree_tile => (layerSet layer (x : Int) (y : Int) (some (tree_tile : Int)), rt.2)
          | none => (layer, rt.2)
        else
          let rr := get_tile_for_element st SceneElement.ROCK r2.2
          match rr.1 with
          | some rock_tile => (layerSet layer (x : Int) (y : Int) (some (rock_tile : Int)), rr.2)
          | none => (layer, rr.2)
      else (layer, r1.2)))

/-- The final layer application of `generate_map`: ground tile first,
then the feature tile where present. -/
def applyLayers (tilemap : EnhancedTileMap) (width height : Nat)
    (ground_layer : List (List Int))
    (feature_layer : List (List (Option Int))) : EnhancedTileMap :=
  (List.range height).foldl (fun m y =>
    (List.range width).foldl (fun m x =>
      let m := m.set_tile (Int.ofNat x) (Int.ofNat y) ((ground_layer.getD y []).getD x 0)
      match (feature_layer.getD y []).getD x none with
      | some tid => m.set_tile (Int.ofNat x) (Int.ofNat y) tid
      | none => m) m) tilemap

/-- `EnhancedMapGenerator.generate_map`. -/
def generate_map (gen : EnhancedMapGenerator) (width height : Nat)
    (zone_type : String) (g : Rng) : EnhancedTileMap × Rng :=
  let tilemap := EnhancedTileMap.mk' (width : Int) (height : Int)
  let heightmap := gen.perlin.generate_noise_map width height 10 4 (1/2) 2
  let _moisture := gen.perlin.generate_noise_map width height 15 2 (1/2) 2
  let feature_layer : List (List (Option Int)) :=
    List.replicate height (List.replicate width (none : Option Int))
  let rt := generateTerrain gen.tileset.indexer width height heightmap zone_type g
  let rf :=
    if zone_type = "village" then
      generateVillageFeatures gen.tileset.indexer feature_layer width height rt.2
    else if zone_type = "forest" then
      generateForestFeatures gen.tileset.indexer feature_layer width height rt.2
    else (feature_layer, rt.2)
  (applyLayers tilemap width height rt.1 rf.1, rf.2)

end EnhancedMapGenerator

theorem normalizeField_singleton (v : ℚ) :
    PerlinNoise.normalizeField [[v]] = [[0]] := by
  unfold PerlinNoise.normalizeField
  simp [sub_self]

/-- On a 1×1 grid the min/max normalization degenerates, so the noise
map is `[[0]]` for any permutation table and parameters. -/
theorem noise_map_1x1 (pn : PerlinNoise) (s p l : ℚ) (o : Nat) :
    pn.generate_noise_map 1 1 s o p l = [[0]] := by
  unfold PerlinNoise.generate_noise_map
  have h1 : List.range 1 = [0] := rfl
  rw [h1]
  simp only [List.map_cons, List.map_nil]
  exact normalizeField_singleton _

/-- C7 (amended): an unknown biome defaults to the village profile in
the basic `MapGenerator.generate_map_for_location`; the enhanced
`EnhancedMapGenerator.generate_map` does *not* default to village — its
behavior on unknown zone types is uniform (all-fallback terrain, no
feature pass) and, per the counterexample, differs from village. -/
theorem unknown_biome_dispatch (ts : Tileset) (gen : EnhancedMapGenerator)
    (location_type zt1 zt2 : String) (width height : Int) (w h : Nat)
    (g g' : Rng)
    (h1 : MapGenerator.pyLower location_type ∉ ["village", "town", "settlement"])
    (h2 : MapGenerator.pyLower location_type ∉ ["forest", "woods", "jungle"])
    (h3 : zt1 ≠ "village") (h4 : zt1 ≠ "forest")
    (h5 : zt2 ≠ "village") (h6 : zt2 ≠ "forest") :
    MapGenerator.generate_map_for_location ts location_type width height g =
      MapGenerator.generate_village ts width height g ∧
    EnhancedMapGenerator.generate_map gen w h zt1 g' =
      EnhancedMapGenerator.generate_map gen w h zt2 g' := by
  constructor
  · unfold MapGenerator.generate_map_for_location
    rw [if_neg h1, if_neg h2]
  · unfold EnhancedMapGenerator.generate_map
    have ht : EnhancedMapGenerator.generateTerrain gen.tileset.indexer w h
        (gen.perlin.generate_noise_map w h 10 4 (1/2) 2) zt1 g' =
      EnhancedMapGenerator.generateTerrain gen.tileset.indexer w h
        (gen.perlin.generate_noise_map w h 10 4 (1/2) 2) zt2 g' := by
      unfold EnhancedMapGenerator.generateTerrain
      simp only [h3, h4, h5, h6, if_false, reduceIte]
    simp only [h3, h4, h5, h6, if_false, reduceIte, ht]

/-- Witness for C7's amended theorem at concrete unknown biome names. -/
theorem unknown_biome_dispatch_witness :
    (MapGenerator.pyLower "dungeon" ∉ ["village", "town", "settlement"]) ∧
    ("dungeon" : String) ≠ "village" ∧
    MapGenerator.generate_map_for_location (setDefaultTileTypes 60) "dungeon"
        5 5 ⟨0⟩ =
      MapGenerator.generate_village (setDefaultTileTypes 60) 5 5 ⟨0⟩ := by
  have h := unknown_biome_dispatch (setDefaultTileTypes 60)
    (EnhancedMapGenerator.init fullTileset ⟨0⟩).1 "dungeon" "dungeon" "cave"
    5 5 3 3 ⟨0⟩ ⟨1⟩ (by decide) (by decide) (by decide) (by decide)
    (by decide) (by decide)
  exact ⟨by decide, by decide, h.1⟩

/-- The enhanced generator of the C7 counterexample (built over the
fully indexed tileset, unseeded table from generator state 0). -/
def genC : EnhancedMapGenerator := (EnhancedMapGenerator.init fullTileset ⟨0⟩).1

/-- The generator state after `EnhancedMapGenerator.__init__` above. -/
def gC : Rng := (EnhancedMapGenerator.init fullTileset ⟨0⟩).2

/-- C7 counterexample: on a 1×1 map from the same generator state, an
unknown zone type ("dungeon") does not produce the village-profile map:
the village pass lays a path/wall feature over its threshold terrain
while the unknown biome yields plain fallback grass with no features. -/
theorem enhanced_unknown_biome_not_village :
    (EnhancedMapGenerator.generate_map genC 1 1 "dungeon" gC).1.map_data ≠
    (EnhancedMapGenerator.generate_map genC 1 1 "village" gC).1.map_data := by
  simp only [EnhancedMapGenerator.generate_map, noise_map_1x1, String.reduceEq,
    reduceIte]
  decide

/-! ## IntelligentTileSelector (`src/core/intelligent_tile_selection.py`) -/

/-- `TileContext` (dataclass): context information for tile selection. -/
structure TileContext where
  tile_type : String
  surrounding_types : List (String × Nat)
  biome_type : String
  terrain_height : ℚ
  moisture_level : ℚ
  distance_from_center : ℚ
  zone_type : String
deriving DecidableEq, Repr

namespace IntelligentTileSelector

/-- `self.biome_distributions` (floats as exact rationals: 0.6 = mkRat 3 5,
0.3 = mkRat 3 10, 0.05 = mkRat 1 20, 0.5 = mkRat 1 2, 0.2 = mkRat 1 5,
0.15 = mkRat 3 20, 0.1 = mkRat 1 10). -/
def biome_distributions : List (String × List (String × ℚ)) :=
  [("forest",
     [("trees", mkRat 3 5), ("grass", mkRat 3 10), ("water", mkRat 1 20),
      ("mountains", mkRat 1 20)]),
   ("village",
     [("grass", mkRat 1 2), ("paths", mkRat 1 5), ("houses", mkRat 3 20),
      ("trees", mkRat 1 10), ("water", mkRat 1 20)]),
   ("mountains",
     [("mountains", mkRat 3 5), ("grass", mkRat 1 5), ("trees", mkRat 3 20),
      ("water", mkRat 1 20)])]

/-- `self.transition_rules`. -/
def transition_rules : List (String × List (String × String)) :=
  [("water",
     [("grass", "water_edge"), ("mountains", "water_edge"),
      ("trees", "water_edge")]),
   ("mountains", [("grass", "mountain_base"), ("trees", "mountain_forest")]),
   ("houses", [("grass", "path"), ("paths", "path")])]

/-- The terrain-height block of `_adjust_weights` (thresholds 0.7 =
mkRat 7 10 and 0.3 = mkRat 3 10; multipliers 0.5 = mkRat 1 2 and 0.1 =
mkRat 1 10).  `weights.get(k, 0)` followed by assignment inserts an
absent key with the scaled default 0, exactly as the Python does. -/
def heightAdjust (weights : List (String × ℚ)) (ctx : TileContext) :
    List (String × ℚ) :=
  if mkRat 7 10 < ctx.terrain_height then
    let a := dictSet weights "mountains" (dictGetD weights "mountains" 0 * 2)
    dictSet a "trees" (dictGetD a "trees" 0 * mkRat 1 2)
  else if ctx.terrain_height < mkRat 3 10 then
    let a := dictSet weights "water" (dictGetD weights "water" 0 * 2)
    dictSet a "mountains" (dictGetD a "mountains" 0 * mkRat 1 10)
  else weights

/-- The moisture block of `_adjust_weights` (threshold 0.6 = mkRat 3 5;
multipliers 1.5 = mkRat 3 2 and 1.3 = mkRat 13 10). -/
def moistureAdjust (weights : List (String × ℚ)) (ctx : TileContext) :
    List (String × ℚ) :=
  if mkRat 3 5 < ctx.moisture_level then
    let a := dictSet weights "trees" (dictGetD weights "trees" 0 * mkRat 3 2)
    dictSet a "water" (dictGetD a "water" 0 * mkRat 13 10)
  else weights

/-- The distance-from-center block of `_adjust_weights` (threshold 0.3 =
mkRat 3 10; multipliers 1.5 = mkRat 3 2 and 0.5 = mkRat 1 2). -/
def centerAdjust (weights : List (String × ℚ)) (ctx : TileContext) :
    List (String × ℚ) :=
  if ctx.zone_type = "village" then
    if ctx.distance_from_center < mkRat 3 10 then
      let a := dictSet weights "houses" (dictGetD weights "houses" 0 * 2)
      dictSet a "paths" (dictGetD a "paths" 0 * mkRat 3 2)
    else
      let a := dictSet weights "houses" (dictGetD weights "houses" 0 * mkRat 1 2)
      dictSet a "trees" (dictGetD a "trees" 0 * mkRat 3 2)
  else weights

/-- All in-place updates of `_adjust_weights`, in program order
(height, then moisture, then distance from center); everything before
the final normalization. -/
def adjustSteps (weights : List (String × ℚ)) (ctx : TileContext) :
    List (String × ℚ) :=
  centerAdjust (moistureAdjust (heightAdjust weights ctx) ctx) ctx

/-- `IntelligentTileSelector._adjust_weights`. -/
def adjust_weights (weights : List (String × ℚ)) (ctx : TileContext) :
    List (String × ℚ) :=
  let w := adjustSteps weights ctx
  let total := sumVals w
  if 0 < total then w.map (fun kv => (kv.1, kv.2 / total)) else w

/-- `random.choices(options, weights, k=1)[0]` resolves a draw
`t = random() * total` in `[0, total)` to the first option whose
cumulative weight strictly exceeds `t` (CPython bisects the cumulative
weights with `bisect_right`). -/
def choicesPick : List (String × ℚ) → ℚ → String
  | [], _ => ""
  | (k, w) :: rest, t => if t < w then k else choicesPick rest (t - w)

/-- `IntelligentTileSelector._weighted_choice`. -/
def weighted_choice (ws : List (String × ℚ)) (g : Rng) : String × Rng :=
  let r := Rng.rand01 g
  (choicesPick ws (r.1 * sumVals ws), r.2)

/-- Python `max(items, key=lambda x: x[1])[0]`: the first item with the
maximal count. -/
def argmaxCount : List (String × Nat) → String
  | [] => ""
  | x :: rest =>
      (rest.foldl (fun best kv => if best.2 < kv.2 then kv else best) x).1

/-- `IntelligentTileSelector.select_tile` (`self.tile_indexer` is the
enhanced tileset, which provides `get_random_tile_id`). -/
def select_tile (ts : EnhancedTileset) (ctx : TileContext) (g : Rng) :
    Nat × Rng :=
  let distribution :=
    dictGetD biome_distributions ctx.biome_type
      (dictGetD biome_distributions "forest" [])
  let adjusted_weights := adjust_weights distribution ctx
  let r := weighted_choice adjusted_weights g
  let tile_type := r.1
  if ctx.surrounding_types ≠ [] then
    match transition_rules.lookup tile_type with
    | some rules =>
        match rules.lookup (argmaxCount ctx.surrounding_types) with
        | some transition_type =>
            EnhancedTileset.get_random_tile_id ts transition_type r.2
        | none => EnhancedTileset.get_random_tile_id ts tile_type r.2
    | none => EnhancedTileset.get_random_tile_id ts tile_type r.2
  else EnhancedTileset.get_random_tile_id ts tile_type r.2

/-- The tile-type keys that can appear in a biome distribution or be
inserted by `_adjust_weights`. -/
def weightKeys : List String :=
  ["trees", "grass", "water", "mountains", "paths", "houses"]

theorem heightAdjust_keys_nodup (w : List (String × ℚ)) (ctx : TileContext)
    (h : (w.map Prod.fst).Nodup) :
    ((heightAdjust w ctx).map Prod.fst).Nodup := by
  unfold heightAdjust
  split
  · exact dictSet_keys_nodup _ _ _ (dictSet_keys_nodup _ _ _ h)
  · split
    · exact dictSet_keys_nodup _ _ _ (dictSet_keys_nodup _ _ _ h)
    · exact h

theorem moistureAdjust_keys_nodup (w : List (String × ℚ)) (ctx : TileContext)
    (h : (w.map Prod.fst).Nodup) :
    ((moistureAdjust w ctx).map Prod.fst).Nodup := by
  unfold moistureAdjust
  split
  · exact dictSet_keys_nodup _ _ _ (dictSet_keys_nodup _ _ _ h)
  · exact h

theorem centerAdjust_keys_nodup (w : List (String × ℚ)) (ctx : TileContext)
    (h : (w.map Prod.fst).Nodup) :
    ((centerAdjust w ctx).map Prod.fst).Nodup := by
  unfold centerAdjust
  split
  · split
    · exact dictSet_keys_nodup _ _ _ (dictSet_keys_nodup _ _ _ h)
    · exact dictSet_keys_nodup _ _ _ (dictSet_keys_nodup _ _ _ h)
  · exact h

theorem adjustSteps_keys_nodup (w : List (String × ℚ)) (ctx : TileContext)
    (h : (w.map Prod.fst).Nodup) :
    ((adjustSteps w ctx).map Prod.fst).Nodup :=
  centerAdjust_keys_nodup _ _ (moistureAdjust_keys_nodup _ _
    (heightAdjust_keys_nodup _ _ h))

theorem heightAdjust_keys (w : List (String × ℚ)) (ctx : TileContext) :
    ∀ k, k ∈ (heightAdjust w ctx).map Prod.fst →
      k ∈ w.map Prod.fst ∨ k ∈ weightKeys := by
  intro k hk
  unfold heightAdjust at hk
  split at hk
  · rcases dictSet_keys_subset _ _ _ k hk with h1 | h1
    · rcases dictSet_keys_subset _ _ _ k h1 with h2 | h2
      · exact Or.inl h2
      · subst h2; right; decide
    · subst h1; right; decide
  · split at hk
    · rcases dictSet_keys_subset _ _ _ k hk with h1 | h1
      · rcases dictSet_keys_subset _ _ _ k h1 with h2 | h2
        · exact Or.inl h2
        · subst h2; right; decide
      · subst h1; right; decide
    · exact Or.inl hk

theorem moistureAdjust_keys (w : List (String × ℚ)) (ctx : TileContext) :
    ∀ k, k ∈ (moistureAdjust w ctx).map Prod.fst →
      k ∈ w.map Prod.fst ∨ k ∈ weightKeys := by
  intro k hk
  unfold moistureAdjust at hk
  split at hk
  · rcases dictSet_keys_subset _ _ _ k hk with h1 | h1
    · rcases dictSet_keys_subset _ _ _ k h1 with h2 | h2
      · exact Or.inl h2
      · subst h2; right; decide
    · subst h1; right; decide
  · exact Or.inl hk

theorem centerAdjust_keys (w : List (String × ℚ)) (ctx : TileContext) :
    ∀ k, k ∈ (centerAdjust w ctx).map Prod.fst →
      k ∈ w.map Prod.fst ∨ k ∈ weightKeys := by
  intro k hk
  unfold centerAdjust at hk
  split at hk
  · split at hk
    · rcases dictSet_keys_subset _ _ _ k hk with h1 | h1
      · rcases dictSet_keys_subset _ _ _ k h1 with h2 | h2
        · exact Or.inl h2
        · subst h2; right; decide
      · subst h1; right; decide
    · rcases dictSet_keys_subset _ _ _ k hk with h1 | h1
      · rcases dictSet_keys_subset _ _ _ k h1 with h2 | h2
        · exact Or.inl h2
        · subst h2; right; decide
      · subst h1; right; decide
  · exact Or.inl hk

theorem adjustSteps_keys (w : List (String × ℚ)) (ctx : TileContext) :
    ∀ k, k ∈ (adjustSteps w ctx).map Prod.fst →
      k ∈ w.map Prod.fst ∨ k ∈ weightKeys := by
  intro k hk
  unfold adjustSteps at hk
  rcases centerAdjust_keys _ _ k hk with h | h
  · rcases moistureAdjust_keys _ _ k h with h2 | h2
    · exact heightAdjust_keys _ _ k h2
    · exact Or.inr h2
  · exact Or.inr h

theorem distribution_keys (b : String) :
    ∀ k, k ∈ (dictGetD biome_distributions b
        (dictGetD biome_distributions "forest" [])).map Prod.fst →
      k ∈ weightKeys := by
  intro k hk
  unfold dictGetD at hk
  cases h : biome_distributions.lookup b with
  | none =>
      simp only [h] at hk
      rw [show biome_distributions.lookup "forest" =
          some [("trees", mkRat 3 5), ("grass", mkRat 3 10),
            ("water", mkRat 1 20), ("mountains", mkRat 1 20)] from by
        decide] at hk
      simp at hk
      rcases hk with rfl | rfl | rfl | rfl <;> decide
  | some d =>
      rw [h] at hk
      have hd := lookup_mem h
      simp [biome_distributions] at hd
      rcases hd with ⟨_, rfl⟩ | ⟨_, rfl⟩ | ⟨_, rfl⟩ <;> simp at hk
      · rcases hk with rfl | rfl | rfl | rfl <;> decide
      · rcases hk with rfl | rfl | rfl | rfl | rfl <;> decide
      · rcases hk with rfl | rfl | rfl | rfl <;> decide

theorem distribution_keys_nodup (b : String) :
    ((dictGetD biome_distributions b
      (dictGetD biome_distributions "forest" [])).map Prod.fst).Nodup := by
  unfold dictGetD
  cases h : biome_distributions.lookup b with
  | none => decide
  | some d =>
      have hd := lookup_mem h
      simp [biome_distributions] at hd
      rcases hd with ⟨_, rfl⟩ | ⟨_, rfl⟩ | ⟨_, rfl⟩ <;> decide

theorem keys_map_div (w : List (String × ℚ)) (c : ℚ) :
    (w.map (fun kv => (kv.1, kv.2 / c))).map Prod.fst = w.map Prod.fst := by
  induction w with
  | nil => rfl
  | cons hd tl ih => simp [ih]

theorem sumVals_map_div (w : List (String × ℚ)) (c : ℚ) :
    sumVals (w.map (fun kv => (kv.1, kv.2 / c))) = sumVals w / c := by
  induction w with
  | nil => simp [sumVals]
  | cons hd tl ih =>
      simp only [sumVals, List.map_cons, List.sum_cons] at ih ⊢
      rw [ih, add_div]

theorem choicesPick_pos_weight (ws : List (String × ℚ)) :
    ∀ t : ℚ, 0 ≤ t → t < sumVals ws →
      ∃ w, (choicesPick ws t, w) ∈ ws ∧ 0 < w := by
  induction ws with
  | nil =>
      intro t h0 hlt
      exfalso
      simp [sumVals] at hlt
      exact absurd hlt (not_lt.mpr h0)
  | cons hd tl ih =>
      intro t h0 hlt
      obtain ⟨k, w⟩ := hd
      by_cases hc : t < w
      · exact ⟨w, by simp [choicesPick, hc], lt_of_le_of_lt h0 hc⟩
      · have hw : w ≤ t := not_lt.mp hc
        have hsum : sumVals ((k, w) :: tl) = w + sumVals tl := by
          simp [sumVals]
        have hlt' : t - w < sumVals tl := by rw [hsum] at hlt; linarith
        rw [show choicesPick ((k, w) :: tl) t = choicesPick tl (t - w) from by
          simp [choicesPick, hc]]
        obtain ⟨w', hmem, hpos⟩ := ih (t - w) (by linarith) hlt'
        exact ⟨w', List.mem_cons_of_mem _ hmem, hpos⟩

theorem get_random_tile_id_type (ts : EnhancedTileset) (tt c : String)
    (g : Rng)
    (hwf : ∀ t ids i, ts.type_to_ids.lookup t = some ids → i ∈ ids →
      ts.id_to_type.lookup i = some t)
    (h0 : ts.id_to_type.lookup 0 = none)
    (hne : tt ≠ c) :
    ts.id_to_type.lookup (EnhancedTileset.get_random_tile_id ts tt g).1 ≠
      some c := by
  unfold EnhancedTileset.get_random_tile_id
  cases h : ts.type_to_ids.lookup tt with
  | none => simp [h0]
  | some ids =>
      by_cases hids : ids = []
      · subst hids; simp [h0]
      · have hm : (Rng.choice ids 0 g).1 ∈ ids := Rng.choice_mem g hids
        have hty := hwf tt ids _ h hm
        show ts.id_to_type.lookup
          (if ids ≠ [] then Rng.choice ids 0 g else (0, g)).1 ≠ some c
        rw [if_pos hids, hty]
        intro hcc
        exact hne (Option.some.inj hcc)

theorem transition_rules_target (tt dom trans : String)
    (rules : List (String × String))
    (h1 : transition_rules.lookup tt = some rules)
    (h2 : rules.lookup dom = some trans) :
    trans ∉ weightKeys := by
  have hm1 := lookup_mem h1
  simp [transition_rules] at hm1
  rcases hm1 with ⟨_, rfl⟩ | ⟨_, rfl⟩ | ⟨_, rfl⟩
  · have hm2 := lookup_mem h2
    simp at hm2
    rcases hm2 with ⟨_, rfl⟩ | ⟨_, rfl⟩ | ⟨_, rfl⟩ <;> decide
  · have hm2 := lookup_mem h2
    simp at hm2
    rcases hm2 with ⟨_, rfl⟩ | ⟨_, rfl⟩ <;> decide
  · have hm2 := lookup_mem h2
    simp at hm2
    rcases hm2 with ⟨_, rfl⟩ | ⟨_, rfl⟩ <;> decide

end IntelligentTileSelector

open IntelligentTileSelector

/-- C8: for every tile context whose adjusted weight table normalizes
with a positive total, `IntelligentTileSelector.select_tile` never
returns a tile belonging to a category whose weight in the
finally-normalized table is 0 — on any tileset whose type/ID maps are
mutually consistent and whose empty sentinel 0 belongs to no category. -/
theorem zero_weight_category_never_selected
    (ts : EnhancedTileset) (ctx : TileContext) (g : Rng) (c : String)
    (hwf : ∀ t ids i, ts.type_to_ids.lookup t = some ids → i ∈ ids →
      ts.id_to_type.lookup i = some t)
    (h0 : ts.id_to_type.lookup 0 = none)
    (htot : 0 < sumVals (adjustSteps (dictGetD biome_distributions
      ctx.biome_type (dictGetD biome_distributions "forest" [])) ctx))
    (hzero : (adjust_weights (dictGetD biome_distributions ctx.biome_type
      (dictGetD biome_distributions "forest" [])) ctx).lookup c = some 0) :
    ts.id_to_type.lookup (select_tile ts ctx g).1 ≠ some c := by
  simp only [select_tile, weighted_choice]
  set dist := dictGetD biome_distributions ctx.biome_type
    (dictGetD biome_distributions "forest" []) with hdist
  set ws := adjust_weights dist ctx with hws
  set tt := choicesPick ws ((Rng.rand01 g).1 * sumVals ws) with htt
  have hnd : (dist.map Prod.fst).Nodup := by
    rw [hdist]; exact distribution_keys_nodup ctx.biome_type
  have hsteps_nodup : ((adjustSteps dist ctx).map Prod.fst).Nodup :=
    adjustSteps_keys_nodup _ _ hnd
  have hwseq : ws = (adjustSteps dist ctx).map
      (fun kv => (kv.1, kv.2 / sumVals (adjustSteps dist ctx))) := by
    rw [hws]
    simp only [adjust_weights]
    rw [if_pos htot]
  have hkeysN : (ws.map Prod.fst).Nodup := by
    rw [hwseq, keys_map_div]; exact hsteps_nodup
  have hsum1 : sumVals ws = 1 := by
    rw [hwseq, sumVals_map_div, div_self (ne_of_gt htot)]
  obtain ⟨hu0, hu1⟩ := Rng.rand01_bounds g
  have ht0 : 0 ≤ (Rng.rand01 g).1 * sumVals ws := by
    rw [hsum1, mul_one]; exact hu0
  have htlt : (Rng.rand01 g).1 * sumVals ws < sumVals ws := by
    rw [hsum1, mul_one]; exact hu1
  obtain ⟨w, hmem, hpos⟩ := choicesPick_pos_weight ws _ ht0 htlt
  rw [← htt] at hmem
  have htt_ne : tt ≠ c := by
    intro heq
    have hw0 : w = 0 := lookup_nodup_unique hkeysN hzero w (heq ▸ hmem)
    exact lt_irrefl 0 (hw0 ▸ hpos)
  have hcmem : c ∈ weightKeys := by
    have h1m := lookup_mem hzero
    have h2m : c ∈ ws.map Prod.fst := List.mem_map_of_mem Prod.fst h1m
    rw [hwseq, keys_map_div] at h2m
    rcases adjustSteps_keys _ _ c h2m with h3 | h3
    · rw [hdist] at h3
      exact distribution_keys ctx.biome_type c h3
    · exact h3
  by_cases hs : ctx.surrounding_types ≠ []
  · rw [if_pos hs]
    cases h1 : transition_rules.lookup tt with
    | none => exact get_random_tile_id_type ts tt c _ hwf h0 htt_ne
    | some rules =>
        show ts.id_to_type.lookup
          (match rules.lookup (argmaxCount ctx.surrounding_types) with
            | some transition_type =>
                EnhancedTileset.get_random_tile_id ts transition_type
                  (Rng.rand01 g).2
            | none =>
                EnhancedTileset.get_random_tile_id ts tt (Rng.rand01 g).2).1
          ≠ some c
        cases h2 : rules.lookup (argmaxCount ctx.surrounding_types) with
        | none => exact get_random_tile_id_type ts tt c _ hwf h0 htt_ne
        | some trans =>
            have hnot := transition_rules_target tt _ trans rules h1 h2
            exact get_random_tile_id_type ts trans c _ hwf h0
              (fun he => hnot (he ▸ hcmem))
  · rw [if_neg hs]
    exact get_random_tile_id_type ts tt c _ hwf h0 htt_ne

/-- A minimal consistent tileset for the C8 witness. -/
def tsW8 : EnhancedTileset :=
  { indexer := { tile_categories := TileIndexer.initialCategories,
                 name_to_id := [], id_to_name := [], current_id := 1 },
    id_to_type := [(1, "trees")],
    id_to_path := [],
    type_to_ids := [("trees", [1])] }

/-- The context of the C8 witness: village distribution with high
terrain, so `_adjust_weights` inserts the absent "mountains" key with
weight 0, which survives normalization as an exact zero. -/
def ctxW8 : TileContext :=
  { tile_type := "grass", surrounding_types := [],
    biome_type := "village", terrain_height := mkRat 4 5,
    moisture_level := mkRat 1 2, distance_from_center := mkRat 1 2,
    zone_type := "forest" }

/-- The adjusted (pre-normalization) weight table of the C8 witness. -/
def tableW8 : List (String × ℚ) :=
  [("grass", mkRat 1 2), ("paths", mkRat 1 5), ("houses", mkRat 3 20),
   ("trees", mkRat 1 10 * mkRat 1 2), ("water", mkRat 1 20),
   ("mountains", (0 : ℚ) * 2)]

theorem adjustSteps_ctxW8 :
    adjustSteps (dictGetD biome_distributions ctxW8.biome_type
      (dictGetD biome_distributions "forest" [])) ctxW8 = tableW8 := by
  unfold adjustSteps centerAdjust moistureAdjust heightAdjust
  rw [if_neg (show ¬(ctxW8.zone_type = "village") from by decide),
    if_neg (show ¬(mkRat 3 5 < ctxW8.moisture_level) from by decide),
    if_pos (show mkRat 7 10 < ctxW8.terrain_height from by decide)]
  rfl

theorem sumVals_tableW8_pos : (0 : ℚ) < sumVals tableW8 := by
  norm_num [tableW8, sumVals, Rat.mkRat_eq_div]

/-- Witness for C8: on a concrete tileset and context (village
distribution, high terrain), the "mountains" key carries weight 0 in the
finally-normalized table, and the selected tile's category is not
"mountains". -/
theorem zero_weight_category_never_selected_witness :
    (adjust_weights (dictGetD biome_distributions ctxW8.biome_type
        (dictGetD biome_distributions "forest" [])) ctxW8).lookup "mountains"
      = some 0 ∧
    tsW8.id_to_type.lookup (select_tile tsW8 ctxW8 ⟨0⟩).1 ≠
      some "mountains" := by
  have htot : 0 < sumVals (adjustSteps (dictGetD biome_distributions
      ctxW8.biome_type (dictGetD biome_distributions "forest" [])) ctxW8) := by
    rw [adjustSteps_ctxW8]; exact sumVals_tableW8_pos
  have hz : (adjust_weights (dictGetD biome_distributions ctxW8.biome_type
      (dictGetD biome_distributions "forest" [])) ctxW8).lookup "mountains"
      = some 0 := by
    simp only [adjust_weights]
    rw [adjustSteps_ctxW8, if_pos sumVals_tableW8_pos]
    rw [show (tableW8.map
        (fun kv => (kv.1, kv.2 / sumVals tableW8))).lookup "mountains"
      = some ((0 : ℚ) * 2 / sumVals tableW8) from rfl]
    norm_num
  refine ⟨hz, zero_weight_category_never_selected tsW8 ctxW8 ⟨0⟩ "mountains"
    ?_ ?_ htot hz⟩
  · intro t ids i h hm
    have hmem := lookup_mem h
    simp [tsW8] at hmem
    obtain ⟨rfl, rfl⟩ := hmem
    simp at hm
    subst hm
    decide
  · decide

/-! ## EnhancedZoneGenerator (`src/core/zone_tile_integration.py`) -/

/-- `EnhancedZoneGenerator._convert_to_standard_map`: a standard map of
the same dimensions sharing the enhanced map's `map_data` (the optional
tileset attachment depends only on the filesystem and never touches
`map_data`). -/
def convertToStandardMap (em : EnhancedTileMap) : TileMap :=
  { width := em.width, height := em.height, tile_size := em.tile_size,
    map_data := em.map_data }

namespace EnhancedZoneGenerator

/-- The grass/tree cell scan of `EnhancedZoneGenerator._populate_forest`
(y outer, x inner; `id_to_type.get` of an unknown ID is `None`, which
matches neither type).  Tile IDs in the grid are the naturals issued by
the indexer, stored in the `Int`-valued `map_data`. -/
def enemyLocations (ts : EnhancedTileset) (m : TileMap) : List (Int × Int) :=
  ((intRange 0 m.height).map (fun y =>
    (intRange 0 m.width).filterMap (fun x =>
      let tile_type := ts.id_to_type.lookup (m.get_tile_id x y).toNat
      if tile_type = some "grass" ∨ tile_type = some "trees" then some (x, y)
      else none))).join

/-- The `for i in range(num_enemies)` loop of the enhanced
`_populate_forest`: while candidate cells remain, choose one, remove it
(`enemy_locations.remove(pos)` drops the first occurrence), draw a
level and add a wolf with `health = level * 10`; with no cells left the
iteration does nothing. -/
def addEnemiesAtAux (lo hi : Int) :
    Nat → Nat → Zone → List (Int × Int) → Rng → Zone × List (Int × Int) × Rng
  | 0, _, z, locs, g => (z, locs, g)
  | n + 1, i, z, locs, g =>
      if locs ≠ [] then
        let pc := Rng.choice locs (0, 0) g
        let rl := pc.2.randInt lo hi
        let enemy := Enemy.mk' ("wolf_" ++ Nat.repr i) "Wolf" pc.1.1 pc.1.2 300
          (rl.1 * 10)
        addEnemiesAtAux lo hi n (i + 1) (z.add_enemy enemy) (locs.erase pc.1)
          rl.2
      else addEnemiesAtAux lo hi n (i + 1) z locs g

/-- The 3×3 grass-clearing scan of the enhanced `_populate_forest`. -/
def clearingLocations (ts : EnhancedTileset) (m : TileMap) :
    List (Int × Int) :=
  ((intRange 2 (m.height - 2)).map (fun y =>
    (intRange 2 (m.width - 2)).filterMap (fun x =>
      if (intRange (-1) 2).all (fun dy =>
          (intRange (-1) 2).all (fun dx =>
            ts.id_to_type.lookup (m.get_tile_id (x + dx) (y + dy)).toNat
              == some "grass")) then some (x, y)
      else none))).join

/-- `EnhancedZoneGenerator._populate_forest`: wolves only on available
grass/tree cells (at most one per cell), then the Ancient Tree landmark
in a random 3×3 grass clearing when one exists; the whole body is
guarded by `if zone.map:`. -/
def populate_forest (ts : EnhancedTileset) (z : Zone) (g : Rng) :
    Zone × Rng :=
  match z.map with
  | none => (z, g)
  | some m =>
      let locs := enemyLocations ts m
      let r := g.randInt 5 10
      let w := addEnemiesAtAux z.level_range.1 z.level_range.2 r.1.toNat 0 z
        locs r.2
      let cl := clearingLocations ts m
      if cl ≠ [] then
        let pc := Rng.choice cl (0, 0) w.2.2
        (w.1.add_landmark "Ancient Tree" pc.1.1 pc.1.2
          "A massive tree that seems to be hundreds of years old", pc.2)
      else (w.1, w.2.2)

/-- Invariants of the enhanced wolf loop: each iteration with cells
left appends a fresh `wolf_i` with health `level * 10` inside `[lo,hi]`
and consumes one cell, so exactly `min n locs.length` wolves are
added. -/
theorem addEnemiesAtAux_props (lo hi : Int) (hlr : lo ≤ hi) :
    ∀ (n i : Nat) (z : Zone) (locs : List (Int × Int)) (g : Rng),
    i + n ≤ 10 →
    (∀ k ∈ z.enemies.map Prod.fst, ∃ j, j < i ∧ k = "wolf_" ++ Nat.repr j) →
    (addEnemiesAtAux lo hi n i z locs g).1.enemies.length =
      z.enemies.length + min n locs.length ∧
    (∀ kv ∈ (addEnemiesAtAux lo hi n i z locs g).1.enemies,
      kv ∈ z.enemies ∨
      ∃ lvl : Int, lo ≤ lvl ∧ lvl ≤ hi ∧ kv.2.health = lvl * 10) ∧
    (∀ k ∈ (addEnemiesAtAux lo hi n i z locs g).1.enemies.map Prod.fst,
      ∃ j, j < i + n ∧ k = "wolf_" ++ Nat.repr j) := by
  intro n
  induction n with
  | zero =>
      intro i z locs g _ hinv
      refine ⟨by simp [addEnemiesAtAux], ?_, ?_⟩
      · intro kv hkv
        exact Or.inl (by simpa [addEnemiesAtAux] using hkv)
      · intro k hk
        obtain ⟨j, hj, h⟩ := hinv k (by simpa [addEnemiesAtAux] using hk)
        exact ⟨j, by omega, h⟩
  | succ m ih =>
      intro i z locs g hle hinv
      have hi10 : i < 10 := by omega
      by_cases hl : locs ≠ []
      · simp only [addEnemiesAtAux, if_pos hl]
        set pc := Rng.choice locs (0, 0) g with hpc
        set lvl := (pc.2.randInt lo hi).1 with hlvl
        set e := Enemy.mk' ("wolf_" ++ Nat.repr i) "Wolf" pc.1.1 pc.1.2 300
          (lvl * 10) with he
        have heid : e.enemy_id = "wolf_" ++ Nat.repr i := rfl
        have hehp : e.health = lvl * 10 := rfl
        have hlb := @Rng.randInt_le pc.2 lo hi hlr
        have hfresh : e.enemy_id ∉ z.enemies.map Prod.fst := by
          rw [heid]
          intro hmem
          obtain ⟨j, hj, h⟩ := hinv _ hmem
          have := wolfId_inj i hi10 j (by omega) h
          omega
        have hlist := add_enemy_enemies_fresh z e hfresh
        have hinv' : ∀ k ∈ (z.add_enemy e).enemies.map Prod.fst,
            ∃ j, j < i + 1 ∧ k = "wolf_" ++ Nat.repr j := by
          rw [hlist]
          intro k hk
          rw [List.map_append, List.mem_append] at hk
          rcases hk with hk | hk
          · obtain ⟨j, hj, h⟩ := hinv _ hk
            exact ⟨j, by omega, h⟩
          · simp only [List.map_cons, List.map_nil, List.mem_singleton] at hk
            exact ⟨i, by omega, by rw [hk, heid]⟩
        have H := ih (i + 1) (z.add_enemy e) (locs.erase pc.1)
          ((pc.2.randInt lo hi).2) (by omega) hinv'
        have hmemc : pc.1 ∈ locs := by rw [hpc]; exact Rng.choice_mem g hl
        have herase : (locs.erase pc.1).length = locs.length - 1 :=
          List.length_erase_of_mem hmemc
        have hlpos : 0 < locs.length := List.length_pos.mpr hl
        refine ⟨?_, ?_, ?_⟩
        · rw [H.1, hlist, herase]
          simp only [List.length_append, List.length_cons, List.length_nil]
          omega
        · intro kv hkv
          rcases H.2.1 kv hkv with hin | ⟨l, h1, h2, h3⟩
          · rw [hlist, List.mem_append] at hin
            rcases hin with hin | hin
            · exact Or.inl hin
            · simp only [List.mem_singleton] at hin
              refine Or.inr ⟨lvl, hlb.1, hlb.2, ?_⟩
              rw [hin]
              exact hehp
          · exact Or.inr ⟨l, h1, h2, h3⟩
        · intro k hk
          obtain ⟨j, hj, h⟩ := H.2.2 k hk
          exact ⟨j, by omega, h⟩
      · simp only [addEnemiesAtAux, if_neg hl]
        have hleq : locs = [] := not_not.mp hl
        subst hleq
        have H := ih (i + 1) z [] g (by omega) (fun k hk => by
          obtain ⟨j, hj, h⟩ := hinv k hk
          exact ⟨j, by omega, h⟩)
        refine ⟨?_, H.2.1, ?_⟩
        · rw [H.1]
          simp
        · intro k hk
          obtain ⟨j, hj, h⟩ := H.2.2 k hk
          exact ⟨j, by omega, h⟩

/-- Properties of the enhanced `_populate_forest` on a freshly generated
zone with a map: the enemy count is exactly `min n cells` for a draw
`n ∈ [5, 10]`, and each wolf's health is `level * 10` for a level
inside the zone's level range. -/
theorem populate_forest_props (ts : EnhancedTileset) (z : Zone) (m : TileMap)
    (g : Rng) (he : z.enemies = []) (hlr : z.level_range.1 ≤ z.level_range.2)
    (hm : z.map = some m) :
    (populate_forest ts z g).1.enemies.length =
      min (g.randInt 5 10).1.toNat (enemyLocations ts m).length ∧
    5 ≤ (g.randInt 5 10).1.toNat ∧ (g.randInt 5 10).1.toNat ≤ 10 ∧
    ∀ kv ∈ (populate_forest ts z g).1.enemies,
      ∃ lvl : Int, z.level_range.1 ≤ lvl ∧ lvl ≤ z.level_range.2 ∧
        kv.2.health = lvl * 10 := by
  have hb := @Rng.randInt_le g 5 10 (by norm_num)
  have hn5 : 5 ≤ (g.randInt 5 10).1.toNat := by omega
  have hn10 : (g.randInt 5 10).1.toNat ≤ 10 := by omega
  have hinv : ∀ k ∈ z.enemies.map Prod.fst,
      ∃ j, j < 0 ∧ k = "wolf_" ++ Nat.repr j := by
    rw [he]
    simp
  have H := addEnemiesAtAux_props z.level_range.1 z.level_range.2 hlr
    (g.randInt 5 10).1.toNat 0 z (enemyLocations ts m) (g.randInt 5 10).2
    (by omega) hinv
  unfold populate_forest
  rw [hm]
  simp only
  by_cases hcl : clearingLocations ts m ≠ []
  · rw [if_pos hcl]
    simp only [Zone.add_landmark]
    refine ⟨?_, hn5, hn10, ?_⟩
    · rw [H.1, he]
      simp
    · intro kv hkv
      rcases H.2.1 kv hkv with hin | hfact
      · rw [he] at hin
        simp at hin
      · exact hfact
  · rw [if_neg hcl]
    dsimp only
    refine ⟨?_, hn5, hn10, ?_⟩
    · rw [H.1, he]
      simp
    · intro kv hkv
      rcases H.2.1 kv hkv with hin | hfact
      · rw [he] at hin
        simp at hin
      · exact hfact

end EnhancedZoneGenerator

/-- The standard map `EnhancedZoneGenerator.generate_zone` builds for a
1×1 forest request: the enhanced generator's forest map, converted. -/
def mapC6 : TileMap :=
  convertToStandardMap
    (EnhancedMapGenerator.generate_map genC 1 1 "forest" gC).1

/-- The forest zone with level range (2, 5) whose map is `mapC6`, as
`EnhancedZoneGenerator.generate_zone` assembles it just before calling
`_populate_forest` (ID, name and description do not influence enemy
placement). -/
def zC6 : Zone :=
  ( Zone.mk' "forest_2_5_1234" "Darkwood" "A forest area for levels 2-5"
    "forest" (2, 5)).set_map mapC6

set_option maxHeartbeats 1000000 in
/-- C6 counterexample: on the 1×1 forest zone above — `width`/`height`
are caller-chosen arguments of `EnhancedZoneGenerator.generate_zone` —
the generated map has no grass or tree cell, so the enhanced
`_populate_forest` places fewer than 5 enemies, refuting the claimed
5-enemy lower bound on the enhanced path. -/
theorem enhanced_forest_enemy_undercount :
    (EnhancedZoneGenerator.populate_forest fullTileset zC6
      ⟨1⟩).1.enemies.length < 5 := by
  simp only [zC6, mapC6, convertToStandardMap,
    EnhancedMapGenerator.generate_map, noise_map_1x1, String.reduceEq,
    reduceIte]
  decide

/-- C6 (amended): `ZoneManager.generate_zone "forest"` with level range
(2, 5) always yields 5–10 wolves inclusive with health `level * 10`,
level in [2, 5] — hence health in {20, 30, 40, 50}.  The enhanced
`EnhancedZoneGenerator._populate_forest` draws the same 5–10 target `n`
but places wolves only on distinct grass/tree cells, so it adds exactly
`min n cells` enemies — at least 5 only when at least 5 such cells
exist — each still with health `level * 10` for a level inside the
zone's level range. -/
theorem forest_zone_enemy_population_amended (mgr : ZoneManager)
    (name? : Option String) (g : Rng) (ts : EnhancedTileset) (z : Zone)
    (m : TileMap) (g' : Rng) (he : z.enemies = [])
    (hlr : z.level_range.1 ≤ z.level_range.2) (hm : z.map = some m) :
    (5 ≤ (mgr.generate_zone "forest" (2, 5) name? g).1.enemies.length ∧
     (mgr.generate_zone "forest" (2, 5) name? g).1.enemies.length ≤ 10 ∧
     ∀ kv ∈ (mgr.generate_zone "forest" (2, 5) name? g).1.enemies,
       (∃ lvl : Int, 2 ≤ lvl ∧ lvl ≤ 5 ∧ kv.2.health = lvl * 10) ∧
       kv.2.health ∈ ([20, 30, 40, 50] : List Int)) ∧
    ((EnhancedZoneGenerator.populate_forest ts z g').1.enemies.length ≤ 10 ∧
     (∃ n : Nat, 5 ≤ n ∧ n ≤ 10 ∧
       (EnhancedZoneGenerator.populate_forest ts z g').1.enemies.length =
         min n (EnhancedZoneGenerator.enemyLocations ts m).length) ∧
     ∀ kv ∈ (EnhancedZoneGenerator.populate_forest ts z g').1.enemies,
       ∃ lvl : Int, z.level_range.1 ≤ lvl ∧ lvl ≤ z.level_range.2 ∧
         kv.2.health = lvl * 10) := by
  have HP := EnhancedZoneGenerator.populate_forest_props ts z m g' he hlr hm
  refine ⟨forest_zone_enemy_population mgr name? g, ?_, ?_, HP.2.2.2⟩
  · rw [HP.1]
    exact le_trans (Nat.min_le_left _ _) HP.2.2.1
  · exact ⟨(g'.randInt 5 10).1.toNat, HP.2.1, HP.2.2.1, HP.1⟩

/-- Witness for C6's amended theorem at the concrete 1×1 forest zone
(whose hypotheses hold definitionally) and an arbitrary manager. -/
theorem forest_zone_enemy_population_amended_witness :
    zC6.enemies = [] ∧ zC6.level_range.1 ≤ zC6.level_range.2 ∧
    zC6.map = some mapC6 ∧
    (EnhancedZoneGenerator.populate_forest fullTileset zC6
      ⟨1⟩).1.enemies.length ≤ 10 := by
  have h := forest_zone_enemy_population_amended mgrW none ⟨0⟩ fullTileset
    zC6 mapC6 ⟨1⟩ rfl (by decide) rfl
  exact ⟨rfl, by decide, rfl, h.2.1⟩
